import Mathlib

/-!
Verification development for the survey-analytics dashboard
(`data.py`, `callbacks.py`, `agg_functions.py`).

The Python code is shallowly embedded: pandas boolean-mask Series become
`List Bool`, DataFrame columns become `List Value` (with `Value.vNA`
standing for NaN / missing cells), percentages computed with float
division become exact rationals (`ℚ`), and the Dash/plotly presentation
layer is either reproduced verbatim (message strings, CSS class names,
colors) or replaced by structured records carrying the same numbers
(noted at each definition).
-/

set_option autoImplicit false

namespace SurveyDash

/-- Constant `TOTAL_SAMPLE = 6024`, the hardcoded row count of the respondent table
(`data.py`). -/
def TOTAL_SAMPLE : Nat := 6024

/-- One cell of the respondent table: a string, an integer, or a missing
value (pandas `NaN`). -/
inductive Value where
  | vStr (s : String)
  | vInt (n : Int)
  | vNA
  deriving DecidableEq, Repr

/-- Python `str(...)` of a cell, as used by
`value_counts.index.map(str)` in `airport_sentiment`. -/
def Value.pyStr : Value → String
  | .vStr s => s
  | .vInt n => toString n
  | .vNA => "nan"

/-! ### String helpers (Python formatting and regex idioms) -/

/-- Whether `p` is a prefix of `s` (character lists). -/
def prefixChars : List Char → List Char → Bool
  | [], _ => true
  | _ :: _, [] => false
  | a :: as, b :: bs => a == b && prefixChars as bs

/-- Whether `needle` occurs as a contiguous substring of `hay`. -/
def containsChars (hay needle : List Char) : Bool :=
  match hay with
  | [] => needle.isEmpty
  | _ :: t => prefixChars needle hay || containsChars t needle

/-- Substring containment on strings. Embeds the membership test of
`Series.str.contains(pattern, regex=True)` when `pattern` is the literal
word `pat` (no regex metacharacters): the Q15 behavioural-filter
responses are plain keywords from the keyword database. -/
def strContains (s pat : String) : Bool := containsChars s.data pat.data

/-- Python regex `^\s+$` (as used in
`replace("^\s+$", np.nan, regex = True)`): a non-empty all-whitespace
string. `\s` is space, tab, newline, carriage return, vertical tab and
form feed. -/
def isBlank (s : String) : Bool :=
  !s.isEmpty && s.data.all (fun c =>
    c == ' ' || c == '\t' || c == '\n' || c == '\r' ||
    c == Char.ofNat 11 || c == Char.ofNat 12)

/-- Digit-grouping helper for `commaFormat`: the input is the reversed
digit list; a comma is inserted after every three digits. -/
def commaRev (ds : List Char) : List Char :=
  if _h : ds.length ≤ 3 then ds
  else ds.take 3 ++ ',' :: commaRev (ds.drop 3)
termination_by ds.length
decreasing_by simpa using by omega

/-- Python `"{:,}".format(n)` for a natural number: decimal digits with
thousands separators. -/
def commaFormat (n : Nat) : String :=
  String.mk (commaRev (toString n).data.reverse).reverse

/-- Python `"{:,}".format(n)` for an integer. -/
def intComma (n : Int) : String :=
  if n < 0 then "-" ++ commaFormat n.natAbs else commaFormat n.natAbs

/-! ### The variable catalog (`data.py`, "Labels" worksheet) -/

/-- One row of the `dfL` labels worksheet: physical column name, parent
question, component label, and variable alias. -/
structure LabelRow where
  column : String
  question : String
  component : String
  variableAlias : String
  deriving DecidableEq, Repr

/-- Access a `dfL` cell by worksheet column name. The four column names
used by the application are `"Column"`, `"Question"`, `"Component"` and
`"Variable alias"`; any other name would be a `KeyError` in pandas and
is mapped to `""` here. -/
def LabelRow.field (r : LabelRow) : String → String
  | "Column" => r.column
  | "Question" => r.question
  | "Component" => r.component
  | "Variable alias" => r.variableAlias
  | _ => ""

/-- Embedding of `data.corresponding(value_col, value, target_col, initial_filter_col,
initial_filter_value)`: optionally pre-filter `dfL` by
`initial_filter_col == initial_filter_value` (the `scope` pair; Python
skips the pre-filter when either argument is falsy/absent), then return
the `target_col` entries of every row whose `value_col` equals `value`,
as a list. -/
def corresponding (dfL : List LabelRow) (value_col value target_col : String)
    (scope : Option (String × String)) : List String :=
  let rows : List LabelRow := match scope with
    | some fv => dfL.filter (fun (r : LabelRow) => r.field fv.1 == fv.2)
    | none => dfL
  (rows.filter (fun (r : LabelRow) => r.field value_col == value)).map
    (fun (r : LabelRow) => r.field target_col)

/-- The pervasive caller pattern `data.corresponding(...)[0]`
(`data.py` `question_ids`, `callbacks.py` `filter_and_summaries`, ...):
take the first candidate; an empty candidate list makes Python's `[0]`
raise `IndexError` immediately, modelled by `none`. -/
def resolveColumn (dfL : List LabelRow) (value_col value target_col : String)
    (scope : Option (String × String)) : Option String :=
  (corresponding dfL value_col value target_col scope).head?

/-- Whether a catalog row survives the optional pre-filter of
`corresponding`. -/
def scopeMatches (scope : Option (String × String)) (r : LabelRow) : Prop :=
  match scope with
  | some fv => r.field fv.1 = fv.2
  | none => True

/-! ### Filter selections and the mask builder
(`filter_and_summaries` in `callbacks.py`) -/

/-- The environment loaded at startup: the labels catalog `dfL`, the
respondent table (column name → cells), and the quick-filter option
dictionaries built in `data.py` from the "Dashboard filters" worksheet
(`market_regions`, `gender_groups`, `age_groups`, `income_groups`,
`travel_groups`). -/
structure Env where
  dfL : List LabelRow
  df : String → List Value
  marketOptions : List (String × List String)
  genderOptions : List (String × List String)
  ageOptions : List (String × (Int × Int))
  incomeOptions : List (String × (Int × Int))
  travelOptions : List (String × (Int × Int))

/-- The `column_map` handed to `filter_and_summaries`: one value per
filter dimension. `purpose`/`domain` are `None` or a selected radio
value; the behavioural triple is `question`/`items`/`responses`. -/
structure Selection where
  market : List String
  gender : List String
  age : Int × Int
  income : Int × Int
  travel : Int × Int
  purpose : Option String
  domain : Option String
  question : Option String
  items : List String
  responses : List Value

/-- Python
`list(cols_options[col].keys())[list(cols_options[col].values()).index(value)]`:
the name of the first quick-filter option whose stored value equals the
selection, or `none` on `ValueError`. -/
def optionKey {α : Type} [DecidableEq α] (opts : List (String × α))
    (v : α) : Option String :=
  (opts.find? (fun p => p.2 == v)).map (fun p => p.1)

/-- Market summary: option name if the selected market list matches an
option, otherwise `" ".join(value)`. -/
def marketSummary (env : Env) (value : List String) : String :=
  match optionKey env.marketOptions value with
  | some k => k
  | none => String.intercalate " " value

/-- Gender summary: option name if the selected gender list matches an
option, otherwise `" ".join(value)`. -/
def genderSummary (env : Env) (value : List String) : String :=
  match optionKey env.genderOptions value with
  | some k => k
  | none => String.intercalate " " value

/-- Age summary: option name when the range matches an option, else
`"{} - {} years"`, collapsed to `"{} years"` when the range slider sits
on a single value. -/
def ageSummary (env : Env) (v : Int × Int) : String :=
  match optionKey env.ageOptions v with
  | some k => k
  | none =>
    if v.1 ≠ v.2 then toString v.1 ++ " - " ++ toString v.2 ++ " years"
    else toString v.1 ++ " years"

/-- Income summary: option name when the range matches an option, else
`"${:,} - ${:,}"`, collapsed to `"${:,}"` for a single value. -/
def incomeSummary (env : Env) (v : Int × Int) : String :=
  match optionKey env.incomeOptions v with
  | some k => k
  | none =>
    if v.1 ≠ v.2 then "$" ++ intComma v.1 ++ " - $" ++ intComma v.2
    else "$" ++ intComma v.1

/-- Travel summary: option name when the range matches an option, else
`"{} - {} trips"`, collapsed to `"{} trips"` for a single value. -/
def travelSummary (env : Env) (v : Int × Int) : String :=
  match optionKey env.travelOptions v with
  | some k => k
  | none =>
    if v.1 ≠ v.2 then toString v.1 ++ " - " ++ toString v.2 ++ " trips"
    else toString v.1 ++ " trips"

/-- Python `Series.isin(values)` for a list of strings (market/gender filters):
missing cells and non-string cells never match. -/
def Value.isinStr (cell : Value) (vs : List String) : Bool :=
  match cell with
  | .vStr s => vs.contains s
  | _ => false

/-- Python `series >= v` for a numeric column: `NaN`/non-numeric compares
false. -/
def Value.geInt (cell : Value) (v : Int) : Bool :=
  match cell with
  | .vInt n => v ≤ n
  | _ => false

/-- Python `series <= v` for a numeric column: `NaN`/non-numeric compares
false. -/
def Value.leInt (cell : Value) (v : Int) : Bool :=
  match cell with
  | .vInt n => n ≤ v
  | _ => false

/-- Python `series == v` for a string scalar (travel purpose/domain filters):
missing cells compare false. -/
def Value.eqStr (cell : Value) (s : String) : Bool :=
  match cell with
  | .vStr t => t == s
  | _ => false

/-- Python `Series.isin(responses)` for the behavioural filter: plain value
membership (pandas also matches `NaN` against a `NaN` in the list,
which list membership reproduces). -/
def Value.isinVals (cell : Value) (vs : List Value) : Bool :=
  vs.contains cell

/-- The Q15 behavioural test
`Series.str.contains("|".join(responses), regex=True)`: for a string
cell, some selected response keyword occurs in the respondent's free
text (non-string responses cannot arise — Python's `"|".join` would
reject them). For a missing (or non-string) cell, `str.contains` yields
`NaN`, and the downstream `all(...)` over `zip(*masks)` treats `NaN` as
truthy, so the program includes the row; the two-valued embedding of the
mask entry therefore maps such cells to `true`. -/
def q15Test (cell : Value) (responses : List Value) : Bool :=
  match cell with
  | .vStr s => responses.any (fun r =>
      match r with
      | .vStr w => strContains s w
      | _ => false)
  | _ => true

/-- Column lookup used by each demographic branch of
`filter_and_summaries`:
`data.corresponding("Variable alias", col_name, "Column")[0]`. The `[0]`
indexing is modelled by `headD ""` (theorems are stated for catalogs in
which the alias resolves). -/
def resolveAliasCol (env : Env) (aliasName : String) : String :=
  (corresponding env.dfL "Variable alias" aliasName "Column" none).headD ""

/-- The demographic part of the `masks` list built by the
`for col_name, value in column_map.items()` loop of
`filter_and_summaries`, in loop order: one `isin` mask each for Market
and Gender when the summary is not `"All"`; a lower-bound and an
upper-bound mask each for Age, Income and Travel when the summary is not
`"All"`; one equality mask each for Travel purpose and Travel domain
when a radio option is selected. -/
def demographicMasks (env : Env) (sel : Selection) : List (List Bool) :=
  (if marketSummary env sel.market ≠ "All" then
    [(env.df (resolveAliasCol env "Market")).map
      (fun c => c.isinStr sel.market)]
  else []) ++
  (if genderSummary env sel.gender ≠ "All" then
    [(env.df (resolveAliasCol env "Gender")).map
      (fun c => c.isinStr sel.gender)]
  else []) ++
  (if ageSummary env sel.age ≠ "All" then
    [(env.df (resolveAliasCol env "Age")).map (fun c => c.geInt sel.age.1),
     (env.df (resolveAliasCol env "Age")).map (fun c => c.leInt sel.age.2)]
  else []) ++
  (if incomeSummary env sel.income ≠ "All" then
    [(env.df (resolveAliasCol env "Income")).map
      (fun c => c.geInt sel.income.1),
     (env.df (resolveAliasCol env "Income")).map
      (fun c => c.leInt sel.income.2)]
  else []) ++
  (if travelSummary env sel.travel ≠ "All" then
    [(env.df (resolveAliasCol env "Travel")).map
      (fun c => c.geInt sel.travel.1),
     (env.df (resolveAliasCol env "Travel")).map
      (fun c => c.leInt sel.travel.2)]
  else []) ++
  (match sel.purpose with
   | some v => [(env.df (resolveAliasCol env "Travel purpose")).map
      (fun c => c.eqStr v)]
   | none => []) ++
  (match sel.domain with
   | some v => [(env.df (resolveAliasCol env "Travel domain")).map
      (fun c => c.eqStr v)]
   | none => [])

/-- The behavioural part of the `masks` list: active only when
`all([question, items, responses])`; for each selected item the data
column is resolved scoped to the selected question
(`corresponding("Component", item, "Column", initial_filter_col =
"Question", initial_filter_value = question)[0]`), and the mask tests
response-set membership — except when `question[:3] == "Q15"`, where it
tests keyword containment in the free text. -/
def behaviouralMasks (env : Env) (sel : Selection) : List (List Bool) :=
  match sel.question with
  | none => []
  | some q =>
    if sel.items.isEmpty || sel.responses.isEmpty then []
    else
      sel.items.map (fun item =>
        let col := (corresponding env.dfL "Component" item "Column"
          (some ("Question", q))).headD ""
        if q.take 3 == "Q15" then
          (env.df col).map (fun c => q15Test c sel.responses)
        else
          (env.df col).map (fun c => c.isinVals sel.responses))

/-- The full `masks` list of `filter_and_summaries`. -/
def allMasks (env : Env) (sel : Selection) : List (List Bool) :=
  demographicMasks env sel ++ behaviouralMasks env sel

/-! ### Combining predicate masks

`filter_and_summaries` combines its list of per-dimension boolean masks
with `final_mask = list(map(all, zip(*masks)))`: Python `zip(*masks)`
truncates to the shortest mask and yields the empty sequence when
`masks` is empty, and `all` of each tuple is the conjunction of its
entries. -/

/-- Embedding of `list(map(all, zip(*masks)))` over boolean masks. -/
def combineMasks : List (List Bool) → List Bool
  | [] => []
  | [m] => m
  | m :: m' :: ms => List.zipWith and m (combineMasks (m' :: ms))

/-- Value of `final_mask` as returned by `filter_and_summaries`: empty exactly
when no predicate is active (the "everyone" sentinel). -/
def finalMask (env : Env) (sel : Selection) : List Bool :=
  combineMasks (allMasks env sel)

/-! ### Cohort-inverse computation (`if_not_audience_A`) -/

/-- Python `[not x for x in final_mask] if final_mask else
[False]*data.TOTAL_SAMPLE`: the `"final_mask"` branch of
`if_not_audience_A` (`callbacks.py`). -/
def if_not_audience_A_final_mask (final_mask : List Bool) : List Bool :=
  if final_mask.isEmpty then List.replicate TOTAL_SAMPLE false
  else final_mask.map (fun x => !x)

/-- Number of `True` entries of a mask
(`sum(1 for i in final_mask if i)` in `callbacks.py`). -/
def countTrue (m : List Bool) : Nat := m.count true

/-- The `"sample_update"` branch of `if_not_audience_A`:
`mask_len = data.TOTAL_SAMPLE - final_mask_len if final_mask_len else 0`.
The displayed string is `"{:,} ({:.0%})".format(mask_len,
mask_len / data.TOTAL_SAMPLE)`; the record keeps the rendered count and
the exact fraction handed to the percent format. -/
structure SampleUpdate where
  shown : Nat
  shownText : String
  fraction : ℚ
  deriving DecidableEq, Repr

/-- The count/fraction shown for Audience B when it is the inverse of
Audience A with `final_mask_len` rows. -/
def if_not_audience_A_sample (final_mask_len : Nat) : SampleUpdate :=
  let mask_len := if final_mask_len ≠ 0 then TOTAL_SAMPLE - final_mask_len
    else 0
  ⟨mask_len, commaFormat mask_len, (mask_len : ℚ) / (TOTAL_SAMPLE : ℚ)⟩

/-! ### The sample-size guard of `produce_graphic` -/

/-- Python `pandas.DataFrame.loc[boolean_list]`: keep the rows whose mask entry
is `True`. -/
def selectRows {α : Type} (rows : List α) (mask : List Bool) : List α :=
  ((rows.zip mask).filter (fun p => p.2)).map (fun p => p.1)

/-- The cohort rows used by `produce_graphic`:
`data.get_data().loc[json.loads(mask)] if json.loads(mask) else
data.get_data()` — an empty mask is the "everyone" sentinel. -/
def cohortDf {α : Type} (rows : List α) (mask : List Bool) : List α :=
  if mask.isEmpty then rows else selectRows rows mask

/-- The `len(df) < 10` short-circuit of `produce_graphic`: an
insufficient cohort yields the markdown message instead of the content
produced by `run_question_function` (abstracted as `agg`). -/
def produceOutput {α β : Type} (rows : List α) (mask : List Bool)
    (agg : List α → β) : Except String β :=
  let df := cohortDf rows mask
  if df.length < 10 then
    Except.error "Please ensure sample comprises 10+ individuals."
  else
    Except.ok (agg df)

/-! ### Aggregation strategies (`agg_functions.py`), numeric cores -/

/-- Cells that survive `dropna()` after blank strings were replaced by
`NaN` (`replace("^\s+$", np.nan, regex = True).dropna()`). -/
def Value.isMissingOrBlank : Value → Bool
  | .vNA => true
  | .vStr s => isBlank s
  | .vInt _ => false

/-- Quantity `col_length` as computed at the top of `one_col_h_bar_plot`,
`two_col_h_bar_plot` and `airport_sentiment`: the number of rows with a
non-missing, non-blank answer. -/
def colLength (cells : List Value) : Nat :=
  (cells.filter (fun c => !c.isMissingOrBlank)).length

/-- Cells kept by `pd.Series.value_counts` (which drops only `NaN`). -/
def nonNA (cells : List Value) : List Value :=
  cells.filter (fun c => c ≠ Value.vNA)

/-- Distinct values of a list in first-seen order. -/
def uniqueVals : List Value → List Value
  | [] => []
  | c :: rest => c :: uniqueVals (rest.filter (fun x => x ≠ c))
termination_by l => l.length
decreasing_by
  simp only [List.length_cons]
  have := List.length_filter_le (fun x => decide (x ≠ c)) rest
  omega

/-- Insert a (value, count) pair into a count-descending list, after any
pair with a strictly larger or equal count (stable). -/
def insertDesc (p : Value × Nat) : List (Value × Nat) → List (Value × Nat)
  | [] => [p]
  | q :: rest => if q.2 < p.2 then p :: q :: rest else q :: insertDesc p rest

/-- Stable insertion sort by count, descending. -/
def sortDesc : List (Value × Nat) → List (Value × Nat)
  | [] => []
  | p :: rest => insertDesc p (sortDesc rest)

/-- Python `pd.Series.value_counts()`: occurrence counts of the distinct
non-`NaN` values, in descending count order. -/
def valueCountsDesc (cells : List Value) : List (Value × Nat) :=
  sortDesc ((uniqueVals (nonNA cells)).map
    (fun v => (v, (nonNA cells).count v)))

/-- The `kwargs` bundle of `one_col_h_bar_plot` (`q_functions` binds
`{"cut-off": 15, "Others": False, "q_id": "Q4"}` for Q4). -/
structure OneColKwargs where
  cutoff : Option Nat
  others : Option Bool
  q_id : String

/-- The value counts of `one_col_h_bar_plot` after the `kwargs`
processing: drop the `"Others"` row when `kwargs["Others"]` is falsy,
then keep the top `kwargs["cut-off"]` rows when that key is present and
truthy. -/
def one_col_value_counts (kw : OneColKwargs) (df : List Value) :
    List (Value × Nat) :=
  let vc := valueCountsDesc df
  let vc := match kw.others with
    | some b => if b then vc else vc.filter (fun p => p.1 ≠ Value.vStr "Others")
    | none => vc
  match kw.cutoff with
  | some n => if n = 0 then vc else vc.take n
  | none => vc

/-- The percentages plotted by `one_col_h_bar_plot`:
`value_counts.apply(lambda x: x / len(df))` — each count is divided by
the cohort row count `len(df)`. -/
def one_col_h_bar_percs (kw : OneColKwargs) (df : List Value) :
    List (Value × ℚ) :=
  (one_col_value_counts kw df).map
    (fun p => (p.1, (p.2 : ℚ) / (df.length : ℚ)))

/-- The footnote of `one_col_h_bar_plot` and `airport_sentiment`,
emitted when `col_length < len(df)`: the markdown reads
`"Note: actual sample is {col_length:,} ({col_length/TOTAL_SAMPLE:.0%})."`;
the record keeps the two formatted numbers. -/
def one_col_footnote (df : List Value) : Option (Nat × ℚ) :=
  if colLength df < df.length then
    some (colLength df, (colLength df : ℚ) / (TOTAL_SAMPLE : ℚ))
  else none

/-- The fixed reindexing labels of `airport_sentiment`. -/
def sentimentLabels : List String :=
  ["1 - The airport is something I have to tolerate to get to my destination",
   "2", "3", "4",
   "5 - The airport is an enjoyable part of the journey"]

/-- Occurrences counted under a sentiment label: `value_counts()`
followed by `index.map(str)` groups cells by their Python string
rendering. -/
def sentiment_count (df : List Value) (label : String) : Nat :=
  ((nonNA df).filter (fun c => c.pyStr == label)).length

/-- The reindexed count for a label: `reindex` produces `NaN` for a
label absent from the value counts (count zero). -/
def sentiment_reindexed (df : List Value) (label : String) : Option Nat :=
  if sentiment_count df label = 0 then none
  else some (sentiment_count df label)

/-- The percentages plotted by `airport_sentiment`:
`value_counts.apply(lambda x: x / col_length)` — each (re-indexed) count
is divided by the non-missing answer count `col_length`. -/
def airport_sentiment_perc (df : List Value) (label : String) : Option ℚ :=
  (sentiment_reindexed df label).map
    (fun n => (n : ℚ) / (colLength df : ℚ))

/-- Quantity `net_positive = np.nansum(value_counts.iloc[-2:].values) /
col_length` of `airport_sentiment` (`nansum` reads a reindexing `NaN`
as 0). -/
def airport_sentiment_net_positive (df : List Value) : ℚ :=
  (((sentiment_reindexed df "4").getD 0 : ℚ) +
    ((sentiment_reindexed df
      "5 - The airport is an enjoyable part of the journey").getD 0 : ℚ)) /
    (colLength df : ℚ)

/-- The pie shares of `generic_pie_chart`:
`df.apply(pd.Series.value_counts).apply(lambda x: x / len(df))` on the
(single) data column — each count divided by the cohort row count. -/
def generic_pie_values (df : List Value) : List (Value × ℚ) :=
  (valueCountsDesc df).map (fun p => (p.1, (p.2 : ℚ) / (df.length : ℚ)))

/-! ### `two_col_h_bar_plot` (Q5/Q6), numbers vs. presentation -/

/-- Fixed label order for Q5. -/
def q5Labels : List String :=
  ["First class", "Business class", "Premium economy", "Economy",
   "Low-cost/Budget airline"]

/-- Fixed label order for Q6. -/
def q6Labels : List String :=
  ["Less than 30 minutes", "30 minutes - 1 hour", "1 - 2 hours",
   "2 - 3 hours", "3 - 4 hours", "More than 4 hours"]

/-- The Q6 dwell-time midvalues `[30*0.8, (30+60)/2, (60+120)/2,
(120+180)/2, (180+240)/2, 240*1.2]` as exact rationals. -/
def q6Midvalues : List ℚ := [24, 45, 90, 150, 210, 288]

/-- Re-indexed `value_counts` entry of a column for a fixed label:
`NaN` (`none`) when the label never occurs. -/
def reindexCount (cells : List Value) (label : String) : Option Nat :=
  let n := (nonNA cells).count (Value.vStr label)
  if n = 0 then none else some n

/-- Q6 column average via
`np.nansum([x * y for x, y in zip(midvalues, value_counts[col])]) /
np.nansum(value_counts[col])` (`nansum` reads `NaN` as 0). -/
def q6Ave (cells : List Value) : ℚ :=
  (List.zipWith (fun m l => m * (((reindexCount cells l).getD 0 : Nat) : ℚ))
    q6Midvalues q6Labels).sum /
  (q6Labels.map (fun l => (((reindexCount cells l).getD 0 : Nat) : ℚ))).sum

/-- Everything `two_col_h_bar_plot` computes from the data alone:
non-missing lengths, re-indexed counts, per-column percentages
(`value_counts.iloc[:,i].apply(lambda x: x / lengths[i])`), and the Q6
dwell-time averages. -/
structure TwoColNumbers where
  lengths : Nat × Nat
  counts : List (String × (Option Nat × Option Nat))
  percs : List (String × (Option ℚ × Option ℚ))
  aves : Option (ℚ × ℚ)
  deriving DecidableEq

/-- The full result of `two_col_h_bar_plot`: the computed numbers plus
the presentation attributes that mention the cohort label `A_or_B`
(marker colors, markdown CSS classes, axis title) and the subsample
footnote texts. -/
structure TwoColView where
  numbers : TwoColNumbers
  footnoteTexts : List String
  markdownClasses : List String
  markerColors : List String
  axisTitle : String
  deriving DecidableEq

/-- Embedding of `two_col_h_bar_plot` for `q_id` `"Q5"` or `"Q6"` over a
two-column frame `df` with column names `names`. Chart markup is elided;
every number and every `A_or_B`-dependent attribute of the figure is
kept. -/
def two_col_h_bar_plot (q_id : String) (df : List (Value × Value))
    (names : String × String) (A_or_B : String) : TwoColView :=
  let cells1 := df.map (fun r => r.1)
  let cells2 := df.map (fun r => r.2)
  let lengths := (colLength cells1, colLength cells2)
  let index := if q_id = "Q5" then q5Labels else q6Labels
  let footnoteTexts :=
    (if lengths.1 < df.length then
      ["**" ++ names.1 ++ ":** subsample of " ++ commaFormat lengths.1 ++ "."]
    else []) ++
    (if lengths.2 < df.length then
      ["**" ++ names.2 ++ ":** subsample of " ++ commaFormat lengths.2 ++ "."]
    else [])
  { numbers :=
      { lengths := lengths
        counts := index.map (fun l =>
          (l, (reindexCount cells1 l, reindexCount cells2 l)))
        percs := index.map (fun l =>
          (l, ((reindexCount cells1 l).map
                (fun n => (n : ℚ) / (lengths.1 : ℚ)),
               (reindexCount cells2 l).map
                (fun n => (n : ℚ) / (lengths.2 : ℚ)))))
        aves := if q_id = "Q6" then some (q6Ave cells1, q6Ave cells2)
          else none }
    footnoteTexts := footnoteTexts
    markdownClasses :=
      if q_id = "Q6" then
        ["text-primary",
         if A_or_B = "A" then "text-danger" else "text-secondary",
         "text-info"]
      else []
    markerColors := [if A_or_B = "A" then "#CE0058" else "#4B4F54", "#007DBA"]
    axisTitle := "% of Audience " ++ A_or_B }

/-! ### Shared numeric and string helpers for the aggregation strategies
(`agg_functions.py`) -/

/-- Python `round()` — banker's rounding, half to even — on an exact
rational, as used by `wrap_func` in `round(text.count(" ") / 3)`. The
floor is computed as `num.fdiv den`. -/
def pyRound (q : ℚ) : ℤ :=
  let f : ℤ := q.num.fdiv q.den
  if q - (f : ℚ) < 1/2 then f
  else if (1/2 : ℚ) < q - (f : ℚ) then f + 1
  else if f % 2 = 0 then f else f + 1

/-- Accumulator pass behind `pySplit`: maximal runs of non-space
characters (the labels this is applied to contain no other
whitespace). -/
def wordsAux : List Char → List Char → List String
  | [], acc => if acc.isEmpty then [] else [String.mk acc.reverse]
  | c :: t, acc =>
      if c = ' ' then
        if acc.isEmpty then wordsAux t []
        else String.mk acc.reverse :: wordsAux t []
      else wordsAux t (c :: acc)

/-- Embedding of Python `text.split()` (split on whitespace runs,
dropping empty pieces). -/
def pySplit (s : String) : List String := wordsAux s.data []

/-- Python `text.count(" ")`: number of space characters. -/
def countSpaces (s : String) : Nat :=
  (s.data.filter (fun c => c = ' ')).length

set_option linter.unusedVariables false in
/-- Replacement of every occurrence of `pat` in a character list by
`rep`, non-overlapping and left to right: the semantics of Python
`str.replace(pat, rep)` (the hypothesis `h` is consumed by the
termination proof). -/
def replaceAllAux (pat rep : List Char) : List Char → List Char
  | [] => []
  | c :: t =>
      if h : pat ≠ [] ∧ prefixChars pat (c :: t) = true then
        rep ++ replaceAllAux pat rep ((c :: t).drop pat.length)
      else
        c :: replaceAllAux pat rep t
termination_by l => l.length
decreasing_by
  · simp only [List.length_drop, List.length_cons]
    have h1 : 1 ≤ pat.length := by
      cases hp : pat with
      | nil => exact absurd hp h.1
      | cons a l => simp
    omega
  · simp

/-- Embedding of Python `str.replace(pat, rep)` on strings. -/
def replaceAll (s pat rep : String) : String :=
  String.mk (replaceAllAux pat.data rep.data s.data)

/-- Embedding of `wrap_func` (`agg_functions.py` lines 45-71): text of
more than 80 characters is split into thirds at word boundaries with
`<br>`, more than 40 into two parts (`round(count(" ")/2) + 1` words
then the rest); the `"Q4"` variant instead rewrites every occurrence of
the regex `(Airport)\s` to `Airport<br>` (the whitespace being a space
in the Q4 labels). -/
def wrap_func (text : String) (q_id : String) : String :=
  if q_id = "unspecified" then
    if 80 < text.length then
      let thirds := (pyRound ((countSpaces text : ℚ) / 3)).toNat
      String.intercalate " " ((pySplit text).take thirds) ++ "<br>" ++
        String.intercalate " " (((pySplit text).drop thirds).take thirds) ++
        "<br>" ++
        String.intercalate " " ((pySplit text).drop (2 * thirds))
    else if 40 < text.length then
      let halfway := (pyRound ((countSpaces text : ℚ) / 2)).toNat + 1
      String.intercalate " " ((pySplit text).take halfway) ++ "<br>" ++
        String.intercalate " " ((pySplit text).drop halfway)
    else text
  else
    if 40 < text.length then replaceAll text "Airport " "Airport<br>" else text

/-- First index at which `pat` occurs as a contiguous substring of the
character list. -/
def idxOfSub (pat : List Char) : List Char → Option Nat
  | [] => if pat.isEmpty then some 0 else none
  | c :: t =>
      if prefixChars pat (c :: t) then some 0
      else (idxOfSub pat t).map (fun i => i + 1)

/-- Embedding of the regex substitution
`re.sub("\s\(e.g..*\)", "", label)` applied to question-item labels: the
greedy match runs from the first `" (e.g."` (the form the two wildcard
dots take in every catalog label) through the last `")"`, and is
deleted; a label without the pattern is unchanged. -/
def removeEgSuffix (s : String) : String :=
  match idxOfSub " (e.g.".data s.data with
  | none => s
  | some i =>
      let rest := s.data.drop i
      match rest.reverse.findIdx? (fun c => c = ')') with
      | none => s
      | some j => String.mk (s.data.take i ++ rest.drop (rest.length - j))

/-- ASCII letter test, the regex class `[a-zA-Z]`. -/
def asciiAlpha (c : Char) : Bool :=
  (decide ('a' ≤ c) && decide (c ≤ 'z')) ||
    (decide ('A' ≤ c) && decide (c ≤ 'Z'))

/-- Embedding of `re.sub("^[^a-zA-Z]+\s([a-zA-Z].*)", r"\1", col)`: when
the label starts with at least one non-letter followed by a whitespace
(a space in these labels) followed by a letter, the prefix through that
whitespace is dropped. -/
def stripLeadingNonAlpha (s : String) : String :=
  match s.data.findIdx? asciiAlpha with
  | none => s
  | some i =>
      if 2 ≤ i ∧ s.data.getD (i - 1) 'x' = ' ' then String.mk (s.data.drop i)
      else s

/-- Test of the regex `[a-zA-Z]+` used by `str.contains` to drop blank
labels from a `value_counts` index. -/
def containsAlpha (s : String) : Bool := s.data.any asciiAlpha

/-- Single-quote character as a string (used inside catalog labels). -/
def sq : String := String.mk [Char.ofNat 39]

/-- Insertion into a list sorted by the non-strict comparison `le`. -/
def insertLe {α : Type} (le : α → α → Bool) (a : α) : List α → List α
  | [] => [a]
  | b :: t => if le a b then a :: b :: t else b :: insertLe le a t

/-- Stable insertion sort by `le`, modelling pandas `sort_values` and
`sort_index`. -/
def sortLe {α : Type} (le : α → α → Bool) : List α → List α
  | [] => []
  | a :: t => insertLe le a (sortLe le t)

/-- Ascending comparison of optional rationals with `NaN` (`none`)
placed last, the pandas `sort_values(ascending=True)` treatment of
missing values. -/
def leOptAsc : Option ℚ → Option ℚ → Bool
  | some x, some y => decide (x ≤ y)
  | some _, none => true
  | none, some _ => false
  | none, none => true

/-- Descending comparison of optional rationals with `NaN` last
(`sort_values(ascending=False)`). -/
def leOptDesc : Option ℚ → Option ℚ → Bool
  | some x, some y => decide (y ≤ x)
  | some _, none => true
  | none, some _ => false
  | none, none => true

/-- Lexicographic comparison of character lists by code point: the
Python string order pandas uses to sort an object index. -/
def charsLe : List Char → List Char → Bool
  | [], _ => true
  | _ :: _, [] => false
  | a :: s, b :: t => if a = b then charsLe s t else decide (a < b)

/-- String order by code points. -/
def strLe (s t : String) : Bool := charsLe s.data t.data

/-- Removal of the first row with the given label, as Python
`list.remove` does (a no-op when the label is absent, where Python would
raise `ValueError`). -/
def removeFirst {α : Type} (label : String) :
    List (String × α) → List (String × α)
  | [] => []
  | p :: t => if p.1 = label then t else p :: removeFirst label t

/-- The reindex idiom `reindex.remove(x); reindex.insert(0, x)`: move
the first row labelled `label` to the front. -/
def moveToFront {α : Type} (label : String) (l : List (String × α)) :
    List (String × α) :=
  match l.find? (fun p => p.1 == label) with
  | some p => p :: removeFirst label l
  | none => l

/-- Numeric cells of a column; pandas numeric aggregations (`mean`,
`median`, `quantile`, `to_numeric(...).dropna()`) drop everything
else. -/
def intCells (cells : List Value) : List Int :=
  cells.filterMap (fun c => match c with | .vInt n => some n | _ => none)

/-- Column mean `x.mean()`: sum of the numeric cells over their count
(`0` on an empty column, where pandas yields `NaN`). -/
def seriesMean (cells : List Value) : ℚ :=
  ((intCells cells).map (fun n => (n : ℚ))).sum /
    ((intCells cells).length : ℚ)

/-- Ascending sort of the numeric cells of a column. -/
def sortedNumeric (cells : List Value) : List ℚ :=
  sortLe (fun a b => decide (a ≤ b)) ((intCells cells).map (fun n => (n : ℚ)))

/-- Linear-interpolation quantile of an ascending list, the pandas
default: with `h = (n-1)q` and `i = ⌊h⌋`, the value is
`x_i + (h - i)(x_(i+1) - x_i)` (`0` on an empty list, where pandas
yields `NaN`). -/
def quantileSorted (xs : List ℚ) (q : ℚ) : ℚ :=
  match xs with
  | [] => 0
  | _ :: _ =>
      let h : ℚ := ((xs.length - 1 : ℕ) : ℚ) * q
      let i : ℕ := (h.num.fdiv h.den).toNat
      let lo := xs.getD i 0
      let hi := xs.getD (i + 1) lo
      lo + (h - (i : ℚ)) * (hi - lo)

/-- Column quantile `x.quantile(q)` (linear interpolation). -/
def seriesQuantile (cells : List Value) (q : ℚ) : ℚ :=
  quantileSorted (sortedNumeric cells) q

/-- Column median `x.median()`, the 0.5 quantile. -/
def seriesMedian (cells : List Value) : ℚ := seriesQuantile cells (1/2)

/-- Count of non-missing cells whose Python string rendering equals
`label`: one row of a per-column `value_counts`. -/
def labelCount (cells : List Value) (label : String) : Nat :=
  ((nonNA cells).filter (fun c => c.pyStr == label)).length

/-- Count of cells whose rendering contains any of the literal
patterns: `x[x.index.str.contains("4|5")].sum()` over a column's
`value_counts` equals the number of cells whose rendered value contains
`"4"` or `"5"` (a `NaN` count never arises because absent labels simply
contribute no cells). -/
def countContaining (cells : List Value) (pats : List String) : Nat :=
  ((nonNA cells).filter
    (fun c => pats.any (fun p => strContains c.pyStr p))).length

/-- Count of integer cells `≥ n` (`len(totals[totals[col] >= number])`;
a `NaN` cell compares false). -/
def countGe (cells : List Value) (n : Int) : Nat :=
  (cells.filter
    (fun c => match c with | .vInt m => decide (n ≤ m) | _ => false)).length

/-- Count of integer cells equal to `n`
(`len(totals[totals[col] == number])`). -/
def countEqInt (cells : List Value) (n : Int) : Nat :=
  cells.count (Value.vInt n)

/-- Count of strictly positive integer cells (`len(x[x > 0])`). -/
def countPos (cells : List Value) : Nat :=
  (cells.filter
    (fun c => match c with | .vInt m => decide (0 < m) | _ => false)).length

/-- The strictly positive cells of a column, for `x[x > 0].median()`. -/
def posCells (cells : List Value) : List Value :=
  cells.filter
    (fun c => match c with | .vInt m => decide (0 < m) | _ => false)

/-- Distinct strings in first-seen order. -/
def uniqueStrs : List String → List String
  | [] => []
  | s :: rest => s :: uniqueStrs (rest.filter (fun x => x ≠ s))
termination_by l => l.length
decreasing_by
  simp only [List.length_cons]
  have := List.length_filter_le (fun x => decide (x ≠ s)) rest
  omega

/-- The rendered labels of one column's `value_counts().index`. -/
def colLabels (cells : List Value) : List String :=
  uniqueStrs ((nonNA cells).map Value.pyStr)

/-- Sorted union of the rendered labels of several columns: the row
index that `df.apply(pd.Series.value_counts)` produces on a multi-column
frame. -/
def unionLabels (cols : List (List Value)) : List String :=
  sortLe strLe
    (uniqueStrs ((cols.map (fun c => (nonNA c).map Value.pyStr)).flatten))

/-- One cell of the `value_counts` frame over a shared label index: the
count of `label` in the column by rendering, `NaN` (`none`) when the
label never occurs there. -/
def vcCell (cells : List Value) (label : String) : Option Nat :=
  let n := labelCount cells label
  if n = 0 then none else some n

/-- Mean of optional rationals skipping `NaN` entries, as pandas
`Series.mean` does. -/
def optMean (xs : List (Option ℚ)) : ℚ :=
  (xs.filterMap id).sum / ((xs.filterMap id).length : ℚ)

/-- Mean of a list of rationals. -/
def qMean (xs : List ℚ) : ℚ := xs.sum / (xs.length : ℚ)

/-- Removal of outlier rows: `df[~mask]` with `True` marking an
outlier, applied to a column aligned with the mask. -/
def dropOutliers {α : Type} (outlier : List Bool) (cells : List α) :
    List α :=
  ((cells.zip outlier).filter (fun p => !p.2)).map (fun p => p.1)

/-! ### The aggregation strategies as numbers plus presentation -/

/-- The presentation attributes of a strategy's output that mention the
cohort label `A_or_B`: CSS colors, markdown class names, and the
label-bearing texts (axis titles, table headers). -/
structure Presentation where
  colors : List String
  classNames : List String
  texts : List String
  deriving DecidableEq

/-- The ubiquitous color conditional
`"#CE0058" if A_or_B == "A" else "#4B4F54"`. -/
def audienceColor (A_or_B : String) : String :=
  if A_or_B = "A" then "#CE0058" else "#4B4F54"

/-- The className conditional
`"text-danger" if A_or_B == "A" else "text-secondary"`. -/
def audienceClass (A_or_B : String) : String :=
  if A_or_B = "A" then "text-danger" else "text-secondary"

/-- The darkest shade conditional `"#67002C"` / `"#26272A"`. -/
def audienceDark (A_or_B : String) : String :=
  if A_or_B = "A" then "#67002C" else "#26272A"

/-- The mid shade conditional `"#FF4997"` / `"#90959C"`. -/
def audienceMid (A_or_B : String) : String :=
  if A_or_B = "A" then "#FF4997" else "#90959C"

/-- The light shade conditional `"#FFC2DC"` / `"#DADCDE"`. -/
def audienceLight (A_or_B : String) : String :=
  if A_or_B = "A" then "#FFC2DC" else "#DADCDE"

/-- The faint shade conditional `"#FFD1E5"` / `"#E5E6E7"`. -/
def audienceFaint (A_or_B : String) : String :=
  if A_or_B = "A" then "#FFD1E5" else "#E5E6E7"

/-- The axis title `'% of Audience {A_or_B}'`. -/
def audienceAxisTitle (A_or_B : String) : String :=
  "% of Audience " ++ A_or_B

/-- The data-derived numeric outputs of each aggregation strategy: every
count, percentage, median, average and row ordering that appears in its
figures, tables and markdown, with `none` standing for a pandas `NaN`
produced by re-indexing or label lookup. -/
inductive AggNumbers where
  | travel (outliersRemoved : Nat) (medianTrips : ℚ)
      (tableShares : List (String × ℚ)) (distribs : List (String × List ℚ))
  | ffp (q3Counts : Option Nat × Option Nat)
      (q3bRows : List (String × Option ℚ × Option ℚ × ℚ))
      (yesShare : Option ℚ)
  | oneCol (percs : List (Value × ℚ)) (footnote : Option (Nat × ℚ))
  | twoCol (numbers : TwoColNumbers)
  | sentiment (percs : List (String × Option ℚ)) (ave : ℚ)
      (netPositive : ℚ) (footnote : Option (Nat × ℚ))
  | voucher (spendPerc : List (String × ℚ)) (medByPlot1 : List (String × ℚ))
      (medOrder : List String) (aveByPlot1 : List (String × ℚ))
      (aveOrder : List String) (shareOfSpend : List (String × ℚ))
  | totalOrder (shares : List (String × Option ℚ))
      (catAves : List (String × ℚ))
  | satisfaction (satShares : List (String × ℚ))
      (satCatAves : List (String × ℚ)) (disShares : List (String × ℚ))
      (disCatAves : List (String × ℚ))
  | services (interested : List (String × ℚ)) (likelihoodNames : List String)
      (likelihood : List (String × List (Option ℚ)))
      (booking : List (String × ℚ × ℚ))
  | stacked (groupNames : List String)
      (rows : List (String × List (Option ℚ))) (footnote : Option (Nat × ℚ))
  | grouped (shares : List (String × Option ℚ))
  | pieBreakdown (pieShares : List (String × Option ℚ))
      (barShares : List (String × Option ℚ))
  | genericPie (pieShares : List (String × Option ℚ))
      (tableShares : List (String × ℚ))
  | fnb (popScores : List (String × ℚ))
      (breakdown : List (String × ℚ × Option ℚ × ℚ))
  | distribution (binShares : List (String × ℚ)) (median : ℚ) (q25 : ℚ)
      (q75 : ℚ) (pieShares : List (String × ℚ)) (footnote : Option (Nat × ℚ))
  deriving DecidableEq

/-- A strategy's full output, split into its data-derived numbers and
the presentation attributes that depend on the cohort label. Chart
markup that depends on neither (hover templates, bar patterns, plot
heights, fixed colors) is elided. -/
structure AggView where
  numbers : AggNumbers
  presentation : Presentation
  deriving DecidableEq

/-- Embedding of `travel_breakdown` (`agg_functions.py` lines 107-455).
Inputs: the cohort's question columns `qcols` (component name, cells),
the aligned outlier mask (`True` marks an outlier), the aligned
total-trips column with its component name, and the breakdown totals
columns renamed to component names. Numbers: the outliers-removed
count, the post-removal median of the total column, the mean-share
table (`df.apply(np.mean)` with the five iteratively appended
`factor + " sum"` rows, each summing the means whose label matches the
`[Xx]word` regex, all divided by `total_trips`), and the reverse
cumulative distributions over 0-10 trips. The label reaches only
classNames, the table header and the two axis titles. -/
def travel_breakdown (question : String)
    (qcols : List (String × List Value)) (outlier : List Bool)
    (total : List Value) (totalName : String)
    (totalsCols : List (String × List Value)) (A_or_B : String) : AggView :=
  let timeframe := if question = "Q1" then "per year before 2020"
    else "between August 2020 - 2021"
  let outliersRemoved := (outlier.filter (fun b => b)).length
  let fTotal := dropOutliers outlier total
  let medianTrips := seriesMedian fTotal
  let means := qcols.map (fun c => (c.1, seriesMean (dropOutliers outlier c.2)))
  let total_trips := (means.map (fun p => p.2)).sum
  let withSums := [("[Dd]omestic sum", "Domestic", "domestic"),
      ("[Ii]nternational sum", "International", "international"),
      ("[Ll]eisure sum", "Leisure", "leisure"),
      ("[Bb]usiness sum", "Business", "business"),
      ("[Oo]ther sum", "Other", "other")].foldl
    (fun acc f => acc ++
      [(f.1, ((acc.filter (fun p =>
          strContains p.1 f.2.1 || strContains p.1 f.2.2)).map
          (fun p => p.2)).sum)]) means
  let tableShares := withSums.map (fun p => (p.1, p.2 / total_trips))
  let totalsAll := totalsCols.map (fun c => (c.1, dropOutliers outlier c.2)) ++
    [(totalName, fTotal)]
  let distribs := totalsAll.map (fun c =>
    (c.1, (List.range 11).map (fun number =>
      if number ≠ 0 then
        ((countGe c.2 (number : Int) : ℕ) : ℚ) / ((c.2.length : ℕ) : ℚ)
      else ((countEqInt c.2 0 : ℕ) : ℚ) / ((c.2.length : ℕ) : ℚ))))
  { numbers := .travel outliersRemoved medianTrips tableShares distribs
    presentation :=
      { colors := [audienceColor A_or_B]
        classNames := [audienceClass A_or_B]
        texts := ["Breakdown of all trips taken collectively " ++ timeframe ++
            " by Audience " ++ A_or_B,
          audienceAxisTitle A_or_B,
          "% of Audience " ++ A_or_B ++ " members"] } }

/-- The Q3B tier-label transformation applied to the `value_counts`
index: `str.replace` of double quotes by single quotes, then of
`" (e.g."` by `"<br>(e.g."`. -/
def q3bTransform (s : String) : String :=
  replaceAll (replaceAll s "\x22" sq) " (e.g." "<br>(e.g."

/-- The fixed Q3B tier index (`agg_functions.py` lines 526-531); the
single quotes around Silver/Gold/Platinum are those the transformation
just produced. -/
def q3bIndex : List String :=
  ["Base Tier",
   "I am in Base Tier having dropped from a higher tier since COVID",
   "One above Base Tier<br>(e.g. " ++ sq ++ "Silver" ++ sq ++ ")",
   "Two above Base Tier<br>(e.g. " ++ sq ++ "Gold" ++ sq ++ ")",
   "Three above Base Tier<br>(e.g. " ++ sq ++ "Platinum" ++ sq ++
     ") or higher"]

/-- One re-indexed `value_counts` row of the Q3B column, keyed by the
transformed rendering (`none` for a tier that never occurs). -/
def q3bCount (cells : List Value) (label : String) : Option Nat :=
  let n := ((nonNA cells).filter
    (fun c => q3bTransform c.pyStr == label)).length
  if n = 0 then none else some n

/-- Embedding of `ffp_and_breakdown` (`agg_functions.py` lines
457-627): the Yes/No pie counts (re-indexed to `["Yes", "No"]`), the
four tier-breakdown bar rows — first column, dropped-tier second column
(placed on the Base Tier row), and the `NaN`-skipping `Total`, all then
divided by the cohort size — and the title share
`Q3_values[0] / len(df)`. The label reaches only the pie and bar colors
and the axis title. -/
def ffp_and_breakdown (q3 : List Value) (q3b : List Value)
    (A_or_B : String) : AggView :=
  let n := q3.length
  let yes := reindexCount q3 "Yes"
  let no := reindexCount q3 "No"
  let base1 := q3bCount q3b (q3bIndex.getD 1 "")
  let rows := [q3bIndex.getD 0 "", q3bIndex.getD 2 "", q3bIndex.getD 3 "",
    q3bIndex.getD 4 ""].map (fun l =>
      let c1 := q3bCount q3b l
      let c2 := if l = q3bIndex.getD 0 "" then base1 else none
      (l, c1.map (fun k => ((k : ℕ) : ℚ) / (n : ℚ)),
        c2.map (fun k => ((k : ℕ) : ℚ) / (n : ℚ)),
        (((c1.getD 0 + c2.getD 0 : ℕ) : ℚ)) / (n : ℚ)))
  { numbers := .ffp (yes, no) rows
      (yes.map (fun k => ((k : ℕ) : ℚ) / (n : ℚ)))
    presentation :=
      { colors := [audienceColor A_or_B, "white", audienceColor A_or_B]
        classNames := []
        texts := [audienceAxisTitle A_or_B] } }

/-- Embedding of `one_col_h_bar_plot` (`agg_functions.py` lines
632-765) as a full view: the percentages and footnote of the numeric
embedding together with the label-dependent marker color and axis
title. -/
def one_col_h_bar_plot (kw : OneColKwargs) (df : List Value)
    (A_or_B : String) : AggView :=
  { numbers := .oneCol (one_col_h_bar_percs kw df) (one_col_footnote df)
    presentation :=
      { colors := [audienceColor A_or_B]
        classNames := []
        texts := [audienceAxisTitle A_or_B] } }

/-- The `two_col_h_bar_plot` embedding packaged as numbers plus
label-dependent presentation. -/
def two_col_h_bar_view (q_id : String) (df : List (Value × Value))
    (names : String × String) (A_or_B : String) : AggView :=
  { numbers := .twoCol (two_col_h_bar_plot q_id df names A_or_B).numbers
    presentation :=
      { colors := (two_col_h_bar_plot q_id df names A_or_B).markerColors
        classNames := (two_col_h_bar_plot q_id df names A_or_B).markdownClasses
        texts := [(two_col_h_bar_plot q_id df names A_or_B).axisTitle] } }

/-- The `airport_sentiment` average score:
`np.nansum([x*y for x, y in zip(scores, value_counts)]) /
np.nansum(value_counts)` with scores `1..5` (`nansum` reads a
re-indexing `NaN` as 0). -/
def sentiment_ave (df : List Value) : ℚ :=
  (List.zipWith
    (fun s l => (s : ℚ) * (((sentiment_reindexed df l).getD 0 : ℕ) : ℚ))
    [1, 2, 3, 4, 5] sentimentLabels).sum /
  (sentimentLabels.map
    (fun l => (((sentiment_reindexed df l).getD 0 : ℕ) : ℚ))).sum

/-- Embedding of `airport_sentiment` (`agg_functions.py` lines
934-1058): the five re-indexed percentages over `col_length`, the
average and net-positive scores, and the subsample footnote. The label
reaches only two markdown classNames, the marker color and the y-axis
title. -/
def airport_sentiment (df : List Value) (A_or_B : String) : AggView :=
  { numbers := .sentiment
      (sentimentLabels.map (fun l => (l, airport_sentiment_perc df l)))
      (sentiment_ave df) (airport_sentiment_net_positive df)
      (one_col_footnote df)
    presentation :=
      { colors := [audienceColor A_or_B]
        classNames := [audienceClass A_or_B, audienceClass A_or_B]
        texts := [audienceAxisTitle A_or_B] } }

/-- Embedding of `airport_voucher_spend` (`agg_functions.py` lines
1064-1313). Numbers: the share that would spend something
(`len(x[x > 0])` per service, sorted descending, divided by the cohort
size), the positive-spend medians and the means (each re-indexed to the
plot-1 order, with their own descending orders kept as hover ranks),
and the share-of-revenue pie `ave / ave.sum()`. The label reaches only
the three marker colors, the ten pie segment colors and the three
titles. -/
def airport_voucher_spend (cols : List (String × List Value))
    (A_or_B : String) : AggView :=
  let n := (cols.headD ("", [])).2.length
  let counts := cols.map (fun c => (c.1, ((countPos c.2 : ℕ) : ℚ)))
  let sortedCounts := sortLe (fun a b => decide (b.2 ≤ a.2)) counts
  let plot1 := sortedCounts.map (fun p => p.1)
  let spendPerc := sortedCounts.map (fun p => (p.1, p.2 / (n : ℚ)))
  let meds := cols.map (fun c => (c.1, seriesMedian (posCells c.2)))
  let medOrder := (sortLe (fun a b => decide (b.2 ≤ a.2)) meds).map
    (fun p => p.1)
  let medByPlot1 := plot1.map (fun l =>
    (l, ((meds.find? (fun p => p.1 == l)).getD (l, 0)).2))
  let aves := cols.map (fun c => (c.1, seriesMean c.2))
  let aveOrder := (sortLe (fun a b => decide (b.2 ≤ a.2)) aves).map
    (fun p => p.1)
  let aveByPlot1 := plot1.map (fun l =>
    (l, ((aves.find? (fun p => p.1 == l)).getD (l, 0)).2))
  let aveSum := (aveByPlot1.map (fun p => p.2)).sum
  let shareOfSpend := aveByPlot1.map (fun p => (p.1, p.2 / aveSum))
  { numbers := .voucher spendPerc medByPlot1 medOrder aveByPlot1 aveOrder
      shareOfSpend
    presentation :=
      { colors := [audienceColor A_or_B, audienceColor A_or_B,
          audienceColor A_or_B] ++ List.replicate 10 (audienceColor A_or_B)
        classNames := []
        texts := ["% of Audience " ++ A_or_B ++
            " passengers<br>that would spend something",
          "Median spend by Audience " ++ A_or_B ++ " passengers",
          "Expected spend per Audience " ++ A_or_B ++ " passenger"] } }

/-- The Q9 categories of `horizontal_total_order_plot`: positional
ranges over the (unsorted) column order. -/
def q9Cats : List (String × List Nat) :=
  [("Logistics", List.range 6),
   ("Experience", List.range' 6 5),
   ("Incentives", List.range' 11 6)]

/-- The Q19 categories of `horizontal_total_order_plot`: positions in
the name-sorted value order. -/
def q19Cats : List (String × List Nat) :=
  [("Rewards", [0, 1]),
   ("Price comparisons", [4, 5, 6]),
   ("Offers", [12, 13]),
   ("Deliver/collect services", [7, 8, 10]),
   ("Planning assistance", [3, 9]),
   ("Uncorrelated - personal assistant", [2]),
   ("Uncorrelated", [11])]

/-- Embedding of `horizontal_total_order_plot` (`agg_functions.py`
lines 1318-1524). Q9: per-column positive score (renderings containing
`"4"` or `"5"`) over the cohort size, in column order. Q19: the
`"None of the above"` column renamed, the re-indexed `"Selected"` row
over the cohort size, name-sorted. The category averages skip the
`"Uncorrelated"` categories and are ordered descending. The label
reaches only the category colors, the markdown classNames and the axis
title. -/
def horizontal_total_order_plot (q_id : String)
    (cols : List (String × List Value)) (A_or_B : String) : AggView :=
  let n := (cols.headD ("", [])).2.length
  let shares : List (String × Option ℚ) :=
    if q_id = "Q9" then
      cols.map (fun c =>
        (c.1, some (((countContaining c.2 ["4", "5"] : ℕ) : ℚ) / (n : ℚ))))
    else
      sortLe (fun a b => strLe a.1 b.1)
        (cols.map (fun c =>
          (if c.1 = "None of the above" then
            "None of these options would encourage me" else c.1,
           (vcCell c.2 "Selected").map
             (fun k => ((k : ℕ) : ℚ) / (n : ℚ)))))
  let cats := if q_id = "Q9" then q9Cats else q19Cats
  let catAves := sortLe (fun a b => decide (b.2 ≤ a.2))
    ((cats.filter (fun c => !strContains c.1 "Uncorrelated")).map (fun c =>
      (c.1, optMean (c.2.map (fun i => (shares.getD i ("", none)).2)))))
  { numbers := .totalOrder shares catAves
    presentation :=
      { colors := if q_id = "Q9" then
            [audienceColor A_or_B, audienceMid A_or_B, audienceLight A_or_B]
          else
            [audienceDark A_or_B, audienceColor A_or_B, audienceMid A_or_B,
             audienceLight A_or_B, audienceFaint A_or_B, "white", "white"]
        classNames := [audienceClass A_or_B, audienceClass A_or_B]
        texts := [audienceAxisTitle A_or_B] } }

/-- The two column renames at the top of `airport_satisfaction`. -/
def q10Rename (s : String) : String :=
  if s = "Availability of retail shopping delivery service (e.g. to home or destination)"
  then "Availability of retail shopping delivery service"
  else if s = "Ability to pre-order shopping (e.g. access to 24-hour click & collect)"
  then "Ability to pre-order shopping"
  else s

/-- Embedding of `airport_satisfaction` (`agg_functions.py` lines
1530-1767): positive (renderings containing `"4"` or `"5"`) and
negative (`"1"` or `"2"`) scores per renamed column, sorted descending
and divided by the cohort size, with category averages over the
positional column slices `[:5]`, `[5:11]`, `[11:19]`, `[19:]` looked up
by name. The label reaches only the category colors and markdown
classNames and the axis titles. -/
def airport_satisfaction (cols : List (String × List Value))
    (A_or_B : String) : AggView :=
  let renamed := cols.map (fun c => (q10Rename c.1, c.2))
  let n := (cols.headD ("", [])).2.length
  let satCounts := renamed.map (fun c =>
    (c.1, ((countContaining c.2 ["4", "5"] : ℕ) : ℚ)))
  let satShares := (sortLe (fun a b => decide (b.2 ≤ a.2)) satCounts).map
    (fun p => (p.1, p.2 / (n : ℚ)))
  let items := renamed.map (fun c => c.1)
  let cats := [("Arrival - security checks", items.take 5),
    ("Departure waiting area", (items.drop 5).take 6),
    ("Facilities", (items.drop 11).take 8),
    ("Pre-boarding", items.drop 19)]
  let lookup := fun (shares : List (String × ℚ)) (l : String) =>
    ((shares.find? (fun p => p.1 == l)).getD (l, 0)).2
  let satCatAves := cats.map (fun c =>
    (c.1, qMean (c.2.map (lookup satShares))))
  let disCounts := renamed.map (fun c =>
    (c.1, ((countContaining c.2 ["1", "2"] : ℕ) : ℚ)))
  let disShares := (sortLe (fun a b => decide (b.2 ≤ a.2)) disCounts).map
    (fun p => (p.1, p.2 / (n : ℚ)))
  let disCatAves := cats.map (fun c =>
    (c.1, qMean (c.2.map (lookup disShares))))
  { numbers := .satisfaction satShares satCatAves disShares disCatAves
    presentation :=
      { colors := [audienceDark A_or_B, audienceColor A_or_B,
          audienceMid A_or_B, audienceLight A_or_B]
        classNames := [audienceClass A_or_B]
        texts := [audienceAxisTitle A_or_B] } }

/-- The likelihood-group renames of `airport_services`
(`"1 - Not at all interested"` and `"2 - Unlikely"` lose their
numbers). -/
def likelihoodRename (s : String) : String :=
  if s = "1 - Not at all interested" then "Not at all interested"
  else if s = "2 - Unlikely" then "Unlikely" else s

/-- Embedding of `airport_services` (`agg_functions.py` lines
1773-2021). Numbers: the interested share per service (renderings
containing `"3"`, `"4"`, `"5"` or `"6"`, sorted descending — the source
sorts twice — over the cohort size); the likelihood breakdown rows
picked positionally via `index[[0,1,-2,-1]]` from the union index with
the `interested`, `Possibly` (`"3"`/`"4"`) and `Likely` (`"5"`/`"6"`)
rows appended, renamed and re-indexed to plot-1 order over the cohort
size (a position beyond the frame, which would raise in pandas, reads
as a missing label here); and the booking-preference ratio (`"3"`/`"5"`
on the day vs `"4"`/`"6"` in advance, each over their sum, `0` where
pandas yields `NaN` on a zero sum). The label reaches only
marker/category colors, the plot-1 title and the axis titles. -/
def airport_services (cols : List (String × List Value))
    (A_or_B : String) : AggView :=
  let n := (cols.headD ("", [])).2.length
  let interestedCounts := cols.map (fun c =>
    (c.1, ((countContaining c.2 ["3", "4", "5", "6"] : ℕ) : ℚ)))
  let sorted := sortLe (fun a b => decide (b.2 ≤ a.2))
    (sortLe (fun a b => decide (b.2 ≤ a.2)) interestedCounts)
  let plot1 := sorted.map (fun p => p.1)
  let interested := sorted.map (fun p => (p.1, p.2 / (n : ℚ)))
  let union := unionLabels (cols.map (fun c => c.2))
  let fullIdx := union ++ ["interested", "Possibly", "Likely"]
  let pickIdxs := [0, 1, fullIdx.length - 2, fullIdx.length - 1]
  let rowVal := fun (cells : List Value) (i : Nat) =>
    if i = union.length then
      some (((countContaining cells ["3", "4", "5", "6"] : ℕ) : ℚ))
    else if i = union.length + 1 then
      some (((countContaining cells ["3", "4"] : ℕ) : ℚ))
    else if i = union.length + 2 then
      some (((countContaining cells ["5", "6"] : ℕ) : ℚ))
    else (vcCell cells (fullIdx.getD i "")).map (fun k => ((k : ℕ) : ℚ))
  let likelihoodNames := pickIdxs.map (fun i =>
    likelihoodRename (fullIdx.getD i ""))
  let colOf := fun (l : String) =>
    ((cols.find? (fun c => c.1 == l)).getD (l, [])).2
  let likelihood := plot1.map (fun l =>
    (l, pickIdxs.map (fun i =>
      (rowVal (colOf l) i).map (fun x => x / (n : ℚ)))))
  let booking := plot1.map (fun l =>
    let onDay := ((countContaining (colOf l) ["3", "5"] : ℕ) : ℚ)
    let inAdv := ((countContaining (colOf l) ["4", "6"] : ℕ) : ℚ)
    (l, onDay / (onDay + inAdv), inAdv / (onDay + inAdv)))
  { numbers := .services interested likelihoodNames likelihood booking
    presentation :=
      { colors := [audienceColor A_or_B, audienceDark A_or_B,
          audienceColor A_or_B, audienceMid A_or_B, audienceLight A_or_B,
          audienceDark A_or_B, audienceLight A_or_B]
        classNames := []
        texts := ["Audience " ++ A_or_B ++
            " passengers that<br>\x22would possibly\x22 or \x22be likely to\x22<br>use this service",
          audienceAxisTitle A_or_B, audienceAxisTitle A_or_B] } }

/-- Count of cells whose rendering contains a letter and any of the
patterns: the `"1|2"` / `"4|5"` row sums of Q17/Q20, whose
`value_counts` index was first restricted to labels matching
`[a-zA-Z]+`. -/
def countContainingF (cells : List Value) (pats : List String) : Nat :=
  ((nonNA cells).filter (fun c => containsAlpha c.pyStr &&
    pats.any (fun p => strContains c.pyStr p))).length

/-- Embedding of `horizontal_stacked_plot` (`agg_functions.py` lines
2027-2286). The effective sample `length` is the blank-aware non-missing
count of the first column and every share is divided by it; the
footnote fires when `length < len(df)`. Q12 appends the `Worsen`
(`"1"`/`"2"` renderings) and `Improve` (`"4"`/`"5"`) rows to the union
index and picks `index[[-2,2,-1]]`, sorting ascending by `Improve`;
Q17/Q20 first drop letterless labels from the union index, append
`Disagree`/`Agree` likewise and sort by `Agree`; Q18 takes the whole
union index and sorts by `"More"` (a position beyond the frame, which
would raise in pandas, reads as a missing label here). Group names then
lose any leading non-letter prefix, service names lose `" (e.g...)"`
and are wrapped. The label reaches only the two non-white group colors
and the axis title. -/
def horizontal_stacked_plot (q_id : String)
    (cols : List (String × List Value)) (A_or_B : String) : AggView :=
  let firstCol := (cols.headD ("", [])).2
  let nDf := firstCol.length
  let length := colLength firstCol
  let footnote : Option (Nat × ℚ) :=
    if length < nDf then
      some (length, (length : ℚ) / (TOTAL_SAMPLE : ℚ))
    else none
  let union := unionLabels (cols.map (fun c => c.2))
  let unionF := union.filter containsAlpha
  let base := if q_id = "Q18" then union
    else if q_id = "Q12" then union else unionF
  let baseIdx := if q_id = "Q18" then base
    else if q_id = "Q12" then base ++ ["Worsen", "Improve"]
    else base ++ ["Disagree", "Agree"]
  let rowVal := fun (cells : List Value) (i : Nat) =>
    if q_id ≠ "Q18" ∧ base.length ≤ i then
      some (((if q_id = "Q12" then
          countContaining cells (if i = base.length then ["1", "2"]
            else ["4", "5"])
        else
          countContainingF cells (if i = base.length then ["1", "2"]
            else ["4", "5"]) : ℕ)) : ℚ)
    else (vcCell cells (baseIdx.getD i "")).map (fun k => ((k : ℕ) : ℚ))
  let picks := if q_id = "Q18" then List.range baseIdx.length
    else [baseIdx.length - 2, 2, baseIdx.length - 1]
  let groupNames0 := picks.map (fun i => baseIdx.getD i "")
  let rows0 := cols.map (fun c =>
    (c.1, picks.map (fun i => rowVal c.2 i)))
  let keyName := if q_id = "Q18" then "More"
    else if q_id = "Q12" then "Improve" else "Agree"
  let keyIdx := groupNames0.indexOf keyName
  let sorted := sortLe
    (fun a b => leOptAsc (a.2.getD keyIdx none) (b.2.getD keyIdx none)) rows0
  let groupNames := groupNames0.map stripLeadingNonAlpha
  let rows := sorted.map (fun r =>
    (wrap_func (removeEgSuffix r.1) "unspecified",
     r.2.map (fun v => v.map (fun x => x / (length : ℚ)))))
  { numbers := .stacked groupNames rows footnote
    presentation :=
      { colors := [audienceDark A_or_B, audienceLight A_or_B]
        classNames := []
        texts := [audienceAxisTitle A_or_B] } }

/-- The question-independent preliminary of `horizontal_grouped_plot`
for Q13/Q14/Q16: column names lose `" (e.g...)"` and are wrapped before
any per-question ordering. -/
def groupedPrep (cols : List (String × List Value)) :
    List (String × List Value) :=
  cols.map (fun c => (wrap_func (removeEgSuffix c.1) "unspecified", c.2))

/-- Embedding of the Q13/Q14/Q16 branches of `horizontal_grouped_plot`
(`agg_functions.py` lines 2292-2550): the re-indexed `"Selected"` row
per prepared column, sorted ascending (`NaN` last), with the question's
exclusive response options moved to the front (and Q14's
`"Others (please specify)"` removed), divided by the cohort size. The
label reaches only the non-whitesmoke bar colors and the axis title. -/
def horizontal_grouped_plot (q_id : String)
    (cols : List (String × List Value)) (A_or_B : String) : AggView :=
  let n := (cols.headD ("", [])).2.length
  let selected := (groupedPrep cols).map (fun c =>
    (c.1, (vcCell c.2 "Selected").map (fun k => ((k : ℕ) : ℚ))))
  let sorted := sortLe (fun a b => leOptAsc a.2 b.2) selected
  let ordered :=
    if q_id = "Q13" then
      moveToFront "None - I do not want to arrive earlier" sorted
    else if q_id = "Q14" then
      removeFirst "Others (please specify)"
        (moveToFront "None  I am not interested" sorted)
    else
      moveToFront "I do not interact with<br>the airports in anyway"
        (moveToFront "I do not want a<br>relationship with the airport"
          sorted)
  let shares := ordered.map (fun p =>
    (p.1, p.2.map (fun x => x / (n : ℚ))))
  { numbers := .grouped shares
    presentation :=
      { colors := if q_id = "Q16" then
            ["whitesmoke", audienceColor A_or_B, audienceColor A_or_B]
          else ["whitesmoke", audienceColor A_or_B]
        classNames := []
        texts := [audienceAxisTitle A_or_B] } }

/-- Embedding of the Q15 branch of `horizontal_grouped_plot`: value
counts of the text-clusters column (fetched through the catalog and
aligned with the cohort rows), sorted ascending, with
`"Miscellaneous / Idiosyncratic"` then `"Disengaged travellers"` moved
to the front, divided by the cohort size. -/
def horizontal_grouped_q15 (clusters : List Value) (A_or_B : String) :
    AggView :=
  let counts := (colLabels clusters).map (fun l =>
    (l, ((labelCount clusters l : ℕ) : ℚ)))
  let sorted := sortLe (fun a b => decide (a.2 ≤ b.2)) counts
  let ordered := moveToFront "Disengaged travellers"
    (moveToFront "Miscellaneous / Idiosyncratic" sorted)
  let shares := ordered.map (fun p =>
    (p.1, some (p.2 / (clusters.length : ℚ))))
  { numbers := .grouped shares
    presentation :=
      { colors := ["whitesmoke", "whitesmoke", audienceColor A_or_B]
        classNames := []
        texts := [audienceAxisTitle A_or_B] } }

/-- Embedding of the Q21 branch of `pie_chart_and_breakdown`
(`agg_functions.py` lines 2556-2735), which is row-oriented: per-column
`"Selected"` shares, the share of rows with `"Selected"` in any
`"Replace some"` column, the indifferent share, and the remainder
`1 - (replace + indifferent)`; the bar lists the
`"Replace some with"` columns sorted ascending with the common prefix
removed and the names wrapped. The label reaches only the first pie
color, the bar marker and the axis title. -/
def pie_chart_and_breakdown_q21 (names : List String)
    (rows : List (List Value)) (A_or_B : String) : AggView :=
  let n := rows.length
  let colCells := fun (j : Nat) => rows.map (fun r => r.getD j Value.vNA)
  let colShares := (List.range names.length).map (fun j =>
    (names.getD j "", (vcCell (colCells j) "Selected").map
      (fun k => ((k : ℕ) : ℚ) / (n : ℚ))))
  let replaceIdxs := (List.range names.length).filter (fun j =>
    strContains (names.getD j "") "Replace some")
  let replaceSome := (((rows.filter (fun r => replaceIdxs.any (fun j =>
    r.getD j Value.vNA == Value.vStr "Selected"))).length : ℕ) : ℚ) /
    (n : ℚ)
  let indiff := ((colShares.find?
    (fun p => p.1 == "I am indifferent")).getD ("", none)).2
  let increase := indiff.map (fun i => 1 - (replaceSome + i))
  let pie := [("Replace some retail space", some replaceSome),
    ("I am indifferent", indiff),
    ("Increase retail space only", increase)]
  let bar := (sortLe (fun a b => leOptAsc a.2 b.2)
    (colShares.filter (fun p => strContains p.1 "Replace some with"))).map
    (fun p => (wrap_func (replaceAll p.1 "Replace some with " "")
      "unspecified", p.2))
  { numbers := .pieBreakdown pie bar
    presentation :=
      { colors := [audienceColor A_or_B, "#218D7F", "white",
          audienceColor A_or_B]
        classNames := []
        texts := [audienceAxisTitle A_or_B] } }

/-- Embedding of the Q22 branch of `pie_chart_and_breakdown`: one
column's value-count shares, with an aggregated
`"It is an inconvenience"` entry summing every share whose label
contains `"inconvenience"`; the pie re-indexes four fixed labels and
the bar lists the inconvenience labels sorted ascending with the
aggregate dropped and the names wrapped. The label reaches only the
third pie color, the bar marker and the axis title. -/
def pie_chart_and_breakdown_q22 (cells : List Value) (A_or_B : String) :
    AggView :=
  let n := cells.length
  let labels := colLabels cells
  let base := labels.map (fun l =>
    (l, ((labelCount cells l : ℕ) : ℚ) / (n : ℚ)))
  let inconv := ((base.filter
    (fun p => strContains p.1 "inconvenience")).map (fun p => p.2)).sum
  let shares := if labels.contains "It is an inconvenience" then
      base.map (fun p =>
        if p.1 = "It is an inconvenience" then (p.1, inconv) else p)
    else base ++ [("It is an inconvenience", inconv)]
  let lookup := fun (l : String) =>
    (shares.find? (fun p => p.1 == l)).map (fun p => p.2)
  let pie := [("It is an enjoyable experience",
      lookup "It is an enjoyable experience"),
    ("I am indifferent", lookup "I am indifferent"),
    ("It is an inconvenience", lookup "It is an inconvenience"),
    ("I have not experienced this at an airport",
      lookup "I have not experienced this at an airport")]
  let bar := (removeFirst "It is an inconvenience"
      (sortLe (fun a b => decide (a.2 ≤ b.2)) (shares.filter
        (fun p => strContains p.1 "inconvenience")))).map
    (fun p => (wrap_func p.1 "unspecified", some p.2))
  { numbers := .pieBreakdown pie bar
    presentation :=
      { colors := ["#218D7F", "white", audienceColor A_or_B, "black",
          audienceColor A_or_B]
        classNames := []
        texts := [audienceAxisTitle A_or_B] } }

/-- The two merge candidates of the Gender pie. -/
def genderOther : List String := ["Self-describe", "Prefer not to answer"]

/-- Embedding of `generic_pie_chart` (`agg_functions.py` lines
2738-2886) on its single data column: value-count shares over the
cohort size with wrapped labels; Q24 re-indexes `["Yes", "No"]`; Gender
merges any present `"Self-describe"` / `"Prefer not to answer"` shares
into an appended `"Other"`; Market and Gender add a name-sorted table
(computed before the Gender merge). The label reaches only the pie
segment colors and the table text color. -/
def generic_pie_chart (q_id : String) (df : List Value)
    (A_or_B : String) : AggView :=
  let base := (generic_pie_values df).map (fun p =>
    (wrap_func p.1.pyStr "unspecified", p.2))
  let tableShares := if q_id = "Market" ∨ q_id = "Gender" then
      sortLe (fun a b => strLe a.1 b.1) base
    else []
  let pie : List (String × Option ℚ) :=
    if q_id = "Q24" then
      [("Yes", (base.find? (fun p => p.1 == "Yes")).map (fun p => p.2)),
       ("No", (base.find? (fun p => p.1 == "No")).map (fun p => p.2))]
    else if q_id = "Gender" then
      let others := genderOther.filter (fun l =>
        base.any (fun p => p.1 == l))
      let merged := if others.isEmpty then base
        else (base ++ [("Other", (others.map (fun l =>
          ((base.find? (fun p => p.1 == l)).getD ("", 0)).2)).sum)]).filter
          (fun p => !(others.contains p.1))
      merged.map (fun p => (p.1, some p.2))
    else base.map (fun p => (p.1, some p.2))
  let pieColors := if q_id = "Q24" then [audienceColor A_or_B, "white"]
    else if q_id = "Q23" then
      (List.replicate 6 (audienceColor A_or_B)).set
        ((base.map (fun p => p.1)).indexOf "None of the above") "white"
    else List.replicate 10 (audienceColor A_or_B)
  let tableColors := if q_id = "Market" ∨ q_id = "Gender" then
      [audienceColor A_or_B]
    else []
  { numbers := .genericPie pie tableShares
    presentation :=
      { colors := pieColors ++ tableColors
        classNames := []
        texts := [] } }

/-- Python `int(label[0])` for the f-and-b labels, which begin with
their score digit (the source would raise `ValueError` otherwise). -/
def firstDigit (s : String) : ℚ :=
  ((((s.data.headD '0').toNat : Int) - 48 : Int) : ℚ)

/-- Embedding of `f_and_b_services` (`agg_functions.py` lines
2888-3061). Numbers: the popularity score per service (the
`np.nansum` sumproduct of each label's leading digit with its share,
over the summed shares — absent labels contribute nothing), sorted
descending; and the likelihood breakdown per service in that order
(`"4"`/`"5"` renderings as likely, the re-indexed `"3 - Might Use"`
share, `"1"`/`"2"` as unlikely, over the cohort size), with names
wrapped. The label reaches only the marker and stack colors and the
axis title. -/
def f_and_b_services (cols : List (String × List Value))
    (A_or_B : String) : AggView :=
  let n := (cols.headD ("", [])).2.length
  let union := unionLabels (cols.map (fun c => c.2))
  let share := fun (cells : List Value) (l : String) =>
    (((vcCell cells l).getD 0 : ℕ) : ℚ) / (n : ℚ)
  let pop := fun (cells : List Value) =>
    (union.map (fun l => firstDigit l * share cells l)).sum /
      (union.map (fun l => share cells l)).sum
  let popScores := sortLe (fun a b => decide (b.2 ≤ a.2))
    (cols.map (fun c => (c.1, pop c.2)))
  let breakdown := popScores.map (fun p =>
    let cells := ((cols.find? (fun c => c.1 == p.1)).getD ("", [])).2
    (wrap_func p.1 "unspecified",
     ((countContaining cells ["4", "5"] : ℕ) : ℚ) / (n : ℚ),
     (vcCell cells "3 - Might Use").map
       (fun k => ((k : ℕ) : ℚ) / (n : ℚ)),
     ((countContaining cells ["1", "2"] : ℕ) : ℚ) / (n : ℚ)))
  { numbers := .fnb
      (popScores.map (fun p => (wrap_func p.1 "unspecified", p.2)))
      breakdown
    presentation :=
      { colors := [audienceColor A_or_B, audienceDark A_or_B,
          audienceLight A_or_B]
        classNames := []
        texts := [audienceAxisTitle A_or_B] } }

/-- A `format_bins` label for a closed-left bin `[lo, hi)`: both
endpoints comma-formatted with `prepend`, the upper one less one,
joined by `" - "`. -/
def format_bins (prepend : String) (b : Int × Int) : String :=
  prepend ++ intComma b.1 ++ " - " ++ prepend ++ intComma (b.2 - 1)

/-- Count of numeric cells falling in the closed-left bin `[lo, hi)`
(`value_counts(bins=..., sort=False)` with `closed="left"` bins). -/
def binCount (xs : List Int) (b : Int × Int) : Nat :=
  (xs.filter (fun x => decide (b.1 ≤ x) && decide (x < b.2))).length

/-- Embedding of `distribution_plot` (`agg_functions.py` lines
3067-3300). The bins (and the Age generational bins) are built in
`data.py` from the dataset and are taken here as parameters. Numbers:
the numeric responses (`to_numeric(...).dropna()`), the footnote when
some responses are non-numeric, the bin shares over the response count
(for Income: `"$"`-formatted labels with the first bin renamed
`"Under $..."` and everything from the first `"$200,000"` bin
aggregated into `"$200,000 or more"`), the median and quartiles
(linear interpolation), and for Age the generational pie shares. The
label reaches only the marker, pie and table colors and the markdown
classNames and axis title. -/
def distribution_plot (q_id : String) (cells : List Value)
    (bins : List (Int × Int)) (genBins : List (Int × Int))
    (A_or_B : String) : AggView :=
  let xs := intCells cells
  let nr := xs.length
  let footnote : Option (Nat × ℚ) :=
    if nr < cells.length then
      some (nr, (nr : ℚ) / (TOTAL_SAMPLE : ℚ))
    else none
  let binShares :=
    if q_id = "Income" then
      let labeled := (List.range bins.length).map (fun i =>
        (if i = 0 then "Under $" ++ intComma (bins.getD 0 (0, 1)).2
          else format_bins "$" (bins.getD i (0, 1)),
         binCount xs (bins.getD i (0, 1))))
      match labeled.findIdx? (fun p =>
        prefixChars "$200,000".data p.1.data) with
      | some j =>
          (labeled.take j).map (fun p => (p.1, (p.2 : ℚ) / (nr : ℚ))) ++
            [("$200,000 or more",
              ((((labeled.drop j).map (fun p => p.2)).sum : ℕ) : ℚ) /
                (nr : ℚ))]
      | none => labeled.map (fun p => (p.1, (p.2 : ℚ) / (nr : ℚ)))
    else bins.map (fun b =>
      (format_bins "" b, (binCount xs b : ℚ) / (nr : ℚ)))
  let pieShares := if q_id = "Age" then
      genBins.map (fun b =>
        (format_bins "" b, (binCount xs b : ℚ) / (nr : ℚ)))
    else []
  { numbers := .distribution binShares (seriesMedian cells)
      (seriesQuantile cells (1/4)) (seriesQuantile cells (3/4)) pieShares
      footnote
    presentation :=
      { colors := [audienceColor A_or_B] ++
          (if q_id = "Age" then List.replicate 10 (audienceColor A_or_B)
            else []) ++ [audienceColor A_or_B]
        classNames := [audienceClass A_or_B, audienceClass A_or_B]
        texts := [audienceAxisTitle A_or_B] } }

/-- The per-question data handed to the bound strategy by
`run_question_function` after its label-independent preparation
(`df[columns]` restriction to the cohort rows and renaming to component
names), together with the auxiliary columns some strategies fetch
themselves through `data.corresponding` (outlier/total columns for
Q1/Q2, the Q3B column, the Q15 clusters column, the `data.py` bins for
Age/Income). -/
inductive QuestionInput where
  | travelIn (qcols : List (String × List Value)) (outlier : List Bool)
      (total : List Value) (totalName : String)
      (totalsCols : List (String × List Value))
  | ffpIn (q3 : List Value) (q3b : List Value)
  | oneColIn (df : List Value)
  | twoColIn (df : List (Value × Value)) (names : String × String)
  | colsIn (cols : List (String × List Value))
  | clustersIn (clusters : List Value)
  | rowsIn (names : List String) (rows : List (List Value))
  | distributionIn (cells : List Value) (bins : List (Int × Int))
      (genBins : List (Int × Int))

/-- Embedding of the `q_functions` dispatch table (`callbacks.py` lines
1426-1527): each question id is bound to its strategy with the kwargs
fixed by the table. A bound entry is a function of the prepared input
and the cohort label; input data of the wrong shape for the bound
strategy yields `none`. -/
def q_functions :
    List (String × (QuestionInput → String → Option AggView)) :=
  [("Q1", fun inp l => match inp with
      | .travelIn a b c d e => some (travel_breakdown "Q1" a b c d e l)
      | _ => none),
   ("Q2", fun inp l => match inp with
      | .travelIn a b c d e => some (travel_breakdown "Q2" a b c d e l)
      | _ => none),
   ("Q3", fun inp l => match inp with
      | .ffpIn a b => some (ffp_and_breakdown a b l)
      | _ => none),
   ("Q4", fun inp l => match inp with
      | .oneColIn df => some (one_col_h_bar_plot
          { cutoff := some 15, others := some false, q_id := "Q4" } df l)
      | _ => none),
   ("Q5", fun inp l => match inp with
      | .twoColIn df names => some (two_col_h_bar_view "Q5" df names l)
      | _ => none),
   ("Q6", fun inp l => match inp with
      | .twoColIn df names => some (two_col_h_bar_view "Q6" df names l)
      | _ => none),
   ("Q7", fun inp l => match inp with
      | .oneColIn df => some (airport_sentiment df l)
      | _ => none),
   ("Q8", fun inp l => match inp with
      | .colsIn cols => some (airport_voucher_spend cols l)
      | _ => none),
   ("Q9", fun inp l => match inp with
      | .colsIn cols => some (horizontal_total_order_plot "Q9" cols l)
      | _ => none),
   ("Q10", fun inp l => match inp with
      | .colsIn cols => some (airport_satisfaction cols l)
      | _ => none),
   ("Q11", fun inp l => match inp with
      | .colsIn cols => some (airport_services cols l)
      | _ => none),
   ("Q12", fun inp l => match inp with
      | .colsIn cols => some (horizontal_stacked_plot "Q12" cols l)
      | _ => none),
   ("Q13", fun inp l => match inp with
      | .colsIn cols => some (horizontal_grouped_plot "Q13" cols l)
      | _ => none),
   ("Q14", fun inp l => match inp with
      | .colsIn cols => some (horizontal_grouped_plot "Q14" cols l)
      | _ => none),
   ("Q15", fun inp l => match inp with
      | .clustersIn clusters => some (horizontal_grouped_q15 clusters l)
      | _ => none),
   ("Q16", fun inp l => match inp with
      | .colsIn cols => some (horizontal_grouped_plot "Q16" cols l)
      | _ => none),
   ("Q17", fun inp l => match inp with
      | .colsIn cols => some (horizontal_stacked_plot "Q17" cols l)
      | _ => none),
   ("Q18", fun inp l => match inp with
      | .colsIn cols => some (horizontal_stacked_plot "Q18" cols l)
      | _ => none),
   ("Q19", fun inp l => match inp with
      | .colsIn cols => some (horizontal_total_order_plot "Q19" cols l)
      | _ => none),
   ("Q20", fun inp l => match inp with
      | .colsIn cols => some (horizontal_stacked_plot "Q20" cols l)
      | _ => none),
   ("Q21", fun inp l => match inp with
      | .rowsIn names rows => some (pie_chart_and_breakdown_q21 names rows l)
      | _ => none),
   ("Q22", fun inp l => match inp with
      | .oneColIn cells => some (pie_chart_and_breakdown_q22 cells l)
      | _ => none),
   ("Q23", fun inp l => match inp with
      | .oneColIn df => some (generic_pie_chart "Q23" df l)
      | _ => none),
   ("Q24", fun inp l => match inp with
      | .oneColIn df => some (generic_pie_chart "Q24" df l)
      | _ => none),
   ("Q25", fun inp l => match inp with
      | .colsIn cols => some (f_and_b_services cols l)
      | _ => none),
   ("Market", fun inp l => match inp with
      | .oneColIn df => some (generic_pie_chart "Market" df l)
      | _ => none),
   ("Gender", fun inp l => match inp with
      | .oneColIn df => some (generic_pie_chart "Gender" df l)
      | _ => none),
   ("Age", fun inp l => match inp with
      | .distributionIn cells bins genBins =>
          some (distribution_plot "Age" cells bins genBins l)
      | _ => none),
   ("Income", fun inp l => match inp with
      | .distributionIn cells bins genBins =>
          some (distribution_plot "Income" cells bins genBins l)
      | _ => none)]

/-- Embedding of `run_question_function` (`callbacks.py` lines
1531-1548): the function bound to the question id is looked up in
`q_functions` and called on the prepared input with the cohort label
passed through unchanged. `none` models a question id absent from the
table (a `KeyError` in the source). -/
def run_question_function (q_id : String) (inp : QuestionInput)
    (A_or_B : String) : Option AggView :=
  match q_functions.find? (fun r => r.1 == q_id) with
  | some r => r.2 inp A_or_B
  | none => none

/-! ### Concrete fixtures used by witnesses and counterexamples -/

/-- A trivial environment: empty catalog and option tables, every data
column an all-missing column of full length. -/
def envTriv : Env :=
  { dfL := []
    df := fun _ => List.replicate TOTAL_SAMPLE Value.vNA
    marketOptions := []
    genderOptions := []
    ageOptions := []
    incomeOptions := []
    travelOptions := [] }

/-- An "everything-All" selection against `envTriv`: no option tables,
so every summary falls back to its raw rendering. -/
def selTriv : Selection :=
  { market := []
    gender := []
    age := (18, 85)
    income := (0, 100000)
    travel := (0, 50)
    purpose := none
    domain := none
    question := none
    items := []
    responses := [] }

/-- A two-row catalog in which the component label `"X"` is ambiguous:
it appears under two different questions with two different data
columns. -/
def dfLdup : List LabelRow :=
  [{ column := "C1", question := "Q1 first", component := "X",
     variableAlias := "Q1" },
   { column := "C2", question := "Q2 second", component := "X",
     variableAlias := "Q2" }]

/-- A small environment for exercising the behavioural filter: one
catalog row binding component `"item1"` of question `"QX question"` to
column `"QXcol"`, and a three-row data column. -/
def envBeh : Env :=
  { dfL := [{ column := "QXcol", question := "QX question",
              component := "item1", variableAlias := "QX" }]
    df := fun c => if c = "QXcol" then
        [Value.vStr "yes", Value.vStr "no", Value.vNA]
      else []
    marketOptions := [("All", ["m1", "m2"])]
    genderOptions := [("All", ["g1"])]
    ageOptions := [("All", (18, 85))]
    incomeOptions := [("All", (0, 100000))]
    travelOptions := [("All", (0, 50))]
  }

/-- A behavioural-only selection against `envBeh`: every demographic
dimension matches its `"All"` option, and the behavioural filter selects
`responses = ["yes"]` on `item1` of `"QX question"`. -/
def selBeh : Selection :=
  { market := ["m1", "m2"]
    gender := ["g1"]
    age := (18, 85)
    income := (0, 100000)
    travel := (0, 50)
    purpose := none
    domain := none
    question := some "QX question"
    items := ["item1"]
    responses := [Value.vStr "yes"] }

/-- An environment for the Q15 behavioural filter: one catalog row
binding the Q15 component to column `"Q15col"`, whose single cell is a
missing free-text answer. -/
def envQ15 : Env :=
  { dfL := [{ column := "Q15col", question := "Q15 What innovation",
              component := "Q15item", variableAlias := "Q15" }]
    df := fun c => if c = "Q15col" then [Value.vNA] else []
    marketOptions := []
    genderOptions := []
    ageOptions := []
    incomeOptions := []
    travelOptions := [] }

/-- A Q15 behavioural selection against `envQ15` with one keyword
response. -/
def selQ15 : Selection :=
  { market := []
    gender := []
    age := (18, 85)
    income := (0, 100000)
    travel := (0, 50)
    purpose := none
    domain := none
    question := some "Q15 What innovation"
    items := ["Q15item"]
    responses := [Value.vStr "lounge"] }

end SurveyDash

namespace SurveyDash

/-! ## Claim theorems -/

/-! ### Combination lemmas for C1 -/

/-- When every mask has length `n` and at least one mask is active, the
combined mask has length `n`. -/
theorem combineMasks_length (n : Nat) :
    ∀ ms : List (List Bool), ms ≠ [] → (∀ m ∈ ms, m.length = n) →
      (combineMasks ms).length = n := by
  intro ms
  induction ms with
  | nil => intro h _; exact absurd rfl h
  | cons m rest ih =>
    intro _ hlen
    cases rest with
    | nil => simpa [combineMasks] using hlen m (by simp)
    | cons m' rest' =>
      have hm : m.length = n := hlen m (by simp)
      have hrest : (combineMasks (m' :: rest')).length = n := by
        refine ih (by simp) ?_
        intro x hx
        exact hlen x (List.mem_cons_of_mem m hx)
      simp [combineMasks, List.length_zipWith, hm, hrest]

/-- Each entry of the combined mask is the conjunction of the
corresponding entries of all masks. -/
theorem combineMasks_get (n : Nat) :
    ∀ ms : List (List Bool), (∀ m ∈ ms, m.length = n) →
      ∀ i : Nat, ∀ hi : i < (combineMasks ms).length,
        (combineMasks ms).get ⟨i, hi⟩ =
          ms.all (fun m => m.getD i false) := by
  intro ms
  induction ms with
  | nil => intro _ i hi; simp [combineMasks] at hi
  | cons m rest ih =>
    intro hlen i hi
    cases rest with
    | nil =>
      have hm : i < m.length := by simpa [combineMasks] using hi
      show m.get ⟨i, hi⟩ = [m].all fun x => x.getD i false
      rw [List.all_cons, List.all_nil, Bool.and_true,
        List.getD_eq_getElem m false hm, List.get_eq_getElem]
    | cons m' rest' =>
      have hm : m.length = n := hlen m (by simp)
      have hrestlen : ∀ x ∈ m' :: rest', x.length = n := by
        intro x hx
        exact hlen x (List.mem_cons_of_mem m hx)
      have hclen : (combineMasks (m' :: rest')).length = n := by
        exact combineMasks_length n (m' :: rest') (by simp) hrestlen
      have hi' : i < n := by
        have := hi
        simp only [combineMasks, List.length_zipWith, hm, hclen] at this
        omega
      have him : i < m.length := by omega
      have hic : i < (combineMasks (m' :: rest')).length := by omega
      have hz : (List.zipWith and m (combineMasks (m' :: rest')))[i] =
          and m[i] (combineMasks (m' :: rest'))[i] := List.getElem_zipWith
      have hrec := ih hrestlen i hic
      simp only [combineMasks, List.get_eq_getElem] at hrec ⊢
      rw [hz, hrec]
      simp only [List.all_cons]
      rw [List.getD_eq_getElem m false him]

/-- Every mask appended by `filter_and_summaries` is a map over one data
column. -/
theorem allMasks_shape (env : Env) (sel : Selection) :
    ∀ m ∈ allMasks env sel, ∃ c : String, ∃ f : Value → Bool,
      m = (env.df c).map f := by
  intro m hm
  simp only [allMasks, List.mem_append] at hm
  rcases hm with hm | hm
  · simp only [demographicMasks, List.mem_append] at hm
    rcases hm with ((((((hm | hm) | hm) | hm) | hm) | hm) | hm)
    · split at hm
      · have h' : m = (env.df (resolveAliasCol env "Market")).map
            (fun c => c.isinStr sel.market) := by simpa using hm
        exact ⟨_, _, h'⟩
      · simp at hm
    · split at hm
      · have h' : m = (env.df (resolveAliasCol env "Gender")).map
            (fun c => c.isinStr sel.gender) := by simpa using hm
        exact ⟨_, _, h'⟩
      · simp at hm
    · split at hm
      · simp only [List.mem_cons, List.mem_singleton, List.not_mem_nil,
          or_false] at hm
        rcases hm with hm | hm
        · exact ⟨_, _, hm⟩
        · exact ⟨_, _, hm⟩
      · simp at hm
    · split at hm
      · simp only [List.mem_cons, List.mem_singleton, List.not_mem_nil,
          or_false] at hm
        rcases hm with hm | hm
        · exact ⟨_, _, hm⟩
        · exact ⟨_, _, hm⟩
      · simp at hm
    · split at hm
      · simp only [List.mem_cons, List.mem_singleton, List.not_mem_nil,
          or_false] at hm
        rcases hm with hm | hm
        · exact ⟨_, _, hm⟩
        · exact ⟨_, _, hm⟩
      · simp at hm
    · cases hp : sel.purpose with
      | none => simp [hp] at hm
      | some v =>
        rw [hp] at hm
        have h' : m = (env.df (resolveAliasCol env "Travel purpose")).map
            (fun c => c.eqStr v) := by simpa using hm
        exact ⟨_, _, h'⟩
    · cases hd : sel.domain with
      | none => simp [hd] at hm
      | some v =>
        rw [hd] at hm
        have h' : m = (env.df (resolveAliasCol env "Travel domain")).map
            (fun c => c.eqStr v) := by simpa using hm
        exact ⟨_, _, h'⟩
  · cases hq : sel.question with
    | none => simp [behaviouralMasks, hq] at hm
    | some q =>
      simp only [behaviouralMasks, hq] at hm
      split at hm
      · exact absurd hm (List.not_mem_nil m)
      · rcases List.mem_map.mp hm with ⟨item, _, hitem⟩
        split at hitem
        · exact ⟨_, _, hitem.symm⟩
        · exact ⟨_, _, hitem.symm⟩

/-! ### C1 — mask construction invariant -/

/-- C1: for every filter selection over a table whose columns all have
the full `TOTAL_SAMPLE = 6024` rows, (i) every active per-dimension
predicate mask is full length, (ii) zero active predicates produce the
empty "everyone" sentinel, (iii) at least one active predicate produces
a mask of full length — so the final mask is always full length or
empty, never a shorter non-empty vector — and (iv) the final mask is
the row-wise logical AND of all active predicate masks. -/
theorem mask_builder_and_semantics (env : Env) (sel : Selection)
    (hdf : ∀ c : String, (env.df c).length = TOTAL_SAMPLE) :
    (∀ m ∈ allMasks env sel, m.length = TOTAL_SAMPLE) ∧
    (allMasks env sel = [] → finalMask env sel = []) ∧
    (allMasks env sel ≠ [] →
      (finalMask env sel).length = TOTAL_SAMPLE) ∧
    (∀ i : Nat, ∀ hi : i < (finalMask env sel).length,
      (finalMask env sel).get ⟨i, hi⟩ =
        (allMasks env sel).all (fun m => m.getD i false)) ∧
    ((finalMask env sel).length = TOTAL_SAMPLE ∨ finalMask env sel = []) := by
  have hlen : ∀ m ∈ allMasks env sel, m.length = TOTAL_SAMPLE := by
    intro m hm
    rcases allMasks_shape env sel m hm with ⟨c, f, rfl⟩
    simp [hdf c]
  refine ⟨hlen, ?_, ?_, ?_, ?_⟩
  · intro h
    simp [finalMask, h, combineMasks]
  · intro h
    exact combineMasks_length TOTAL_SAMPLE (allMasks env sel) h hlen
  · intro i hi
    exact combineMasks_get TOTAL_SAMPLE (allMasks env sel) hlen i hi
  · by_cases h : allMasks env sel = []
    · right; simp [finalMask, h, combineMasks]
    · left; exact combineMasks_length TOTAL_SAMPLE (allMasks env sel) h hlen

/-- Witness for C1: the trivial environment satisfies the column-length
hypothesis, and with the everything-selected selection the conclusion
holds. -/
theorem mask_builder_and_semantics_witness :
    (∀ m ∈ allMasks envTriv selTriv, m.length = TOTAL_SAMPLE) ∧
    (allMasks envTriv selTriv = [] → finalMask envTriv selTriv = []) ∧
    (allMasks envTriv selTriv ≠ [] →
      (finalMask envTriv selTriv).length = TOTAL_SAMPLE) ∧
    (∀ i : Nat, ∀ hi : i < (finalMask envTriv selTriv).length,
      (finalMask envTriv selTriv).get ⟨i, hi⟩ =
        (allMasks envTriv selTriv).all (fun m => m.getD i false)) ∧
    ((finalMask envTriv selTriv).length = TOTAL_SAMPLE ∨
      finalMask envTriv selTriv = []) :=
  mask_builder_and_semantics envTriv selTriv (fun c => by simp [envTriv])

/-! ### C2 — cohort inversion -/

/-- C2: `if_not_audience_A("final_mask", ...)` is an involution on
non-empty masks, and maps the empty "everyone" sentinel to the explicit
all-false vector of length `TOTAL_SAMPLE = 6024`. -/
theorem invert_involution (m : List Bool) (h : m ≠ []) :
    if_not_audience_A_final_mask (if_not_audience_A_final_mask m) = m ∧
    if_not_audience_A_final_mask [] = List.replicate TOTAL_SAMPLE false := by
  constructor
  · have hne : m.isEmpty = false := by
      cases m with
      | nil => exact absurd rfl h
      | cons a t => rfl
    have hmapne : (m.map (fun x => !x)).isEmpty = false := by
      cases m with
      | nil => exact absurd rfl h
      | cons a t => rfl
    simp only [if_not_audience_A_final_mask, hne, hmapne, Bool.false_eq_true,
      if_false, List.map_map]
    have : ((fun x => !x) ∘ fun x => !x) = fun x : Bool => x := by
      funext x; simp
    rw [this, List.map_id']
  · rfl

/-- Witness for C2 at the concrete mask `[true, false]`. -/
theorem invert_involution_witness :
    if_not_audience_A_final_mask (if_not_audience_A_final_mask [true, false]) =
      [true, false] ∧
    if_not_audience_A_final_mask [] = List.replicate TOTAL_SAMPLE false :=
  invert_involution [true, false] (by decide)

/-! ### C3 — minimum viable sample-size guard -/

/-- C3: a cohort whose filtered row set has fewer than 10 rows
short-circuits aggregation with the "insufficient sample" message; in
particular exactly 9 rows yields the message and exactly 10 rows runs
the bound aggregation on the filtered rows. -/
theorem sample_size_guard {α β : Type} (rows : List α) (mask : List Bool)
    (agg : List α → β) :
    ((cohortDf rows mask).length < 10 →
      produceOutput rows mask agg =
        Except.error "Please ensure sample comprises 10+ individuals.") ∧
    ((cohortDf rows mask).length = 9 →
      produceOutput rows mask agg =
        Except.error "Please ensure sample comprises 10+ individuals.") ∧
    ((cohortDf rows mask).length = 10 →
      produceOutput rows mask agg = Except.ok (agg (cohortDf rows mask))) := by
  refine ⟨fun h => ?_, fun h => ?_, fun h => ?_⟩
  · simp only [produceOutput, h, if_true]
  · simp only [produceOutput, h]
    norm_num
  · simp only [produceOutput, h]
    norm_num

/-- Witness for C3: a 12-row table with a mask selecting 9 rows yields
the message, and one selecting 10 rows aggregates. -/
theorem sample_size_guard_witness :
    produceOutput (List.range 12)
        (List.replicate 9 true ++ List.replicate 3 false) List.length =
      Except.error "Please ensure sample comprises 10+ individuals." ∧
    produceOutput (List.range 12)
        (List.replicate 10 true ++ List.replicate 2 false) List.length =
      Except.ok 10 := by
  constructor
  · exact (sample_size_guard (List.range 12) _ List.length).2.1 (by decide)
  · have h := (sample_size_guard (List.range 12)
      (List.replicate 10 true ++ List.replicate 2 false) List.length).2.2
      (by decide)
    rw [h]
    rfl

/-! ### Substring-containment correctness (used by C6) -/

/-- Function `prefixChars` decides the prefix relation. -/
theorem prefixChars_iff (p : List Char) :
    ∀ s : List Char, prefixChars p s = true ↔ p <+: s := by
  induction p with
  | nil => intro s; simp [prefixChars]
  | cons a as ih =>
    intro s
    cases s with
    | nil => simp [prefixChars]
    | cons b bs =>
      simp [prefixChars, List.cons_prefix_cons, ih bs, and_comm]

/-- Function `containsChars` decides the substring (infix) relation. -/
theorem containsChars_iff (s p : List Char) :
    containsChars s p = true ↔ p <:+: s := by
  induction s with
  | nil => simp [containsChars, List.infix_nil, List.isEmpty_iff]
  | cons a t ih =>
    simp [containsChars, List.infix_cons_iff, prefixChars_iff, ih]

/-! ### C6 — behavioural filter semantics -/

/-- C6 (amended): with an active behavioural filter `(question q,
items, responses)`, the mask builder produces one mask per selected
item; the mask for item `k` is built over the data column resolved for
that item scoped to `q` (`initial_filter_col = "Question"`), and it
includes a respondent exactly when the respondent's value is a member of
the selected response set — except when `q` starts with `"Q15"`, where
a respondent with a string answer is included exactly when some selected
response keyword is contained in the free text, and a respondent whose
free-text cell is missing (non-string) is included unconditionally
(pandas `str.contains` yields `NaN` there and the combining `all(...)`
treats `NaN` as truthy). -/
theorem behavioural_filter_semantics (env : Env) (sel : Selection)
    (q : String) (hq : sel.question = some q) (hitems : sel.items ≠ [])
    (hresp : sel.responses ≠ []) :
    (behaviouralMasks env sel).length = sel.items.length ∧
    (∀ k : Nat, ∀ hk : k < sel.items.length,
      ∀ i : Nat,
        i < (env.df ((corresponding env.dfL "Component"
          (sel.items.get ⟨k, hk⟩) "Column"
          (some ("Question", q))).headD "")).length →
        (((behaviouralMasks env sel).getD k []).getD i false = true ↔
          (if q.take 3 = "Q15" then
            (∃ s : String,
              ((env.df ((corresponding env.dfL "Component"
                (sel.items.get ⟨k, hk⟩) "Column"
                (some ("Question", q))).headD "")).getD i Value.vNA) =
                Value.vStr s ∧
              ∃ w : String, Value.vStr w ∈ sel.responses ∧
                strContains s w = true) ∨
            (∀ s : String,
              ((env.df ((corresponding env.dfL "Component"
                (sel.items.get ⟨k, hk⟩) "Column"
                (some ("Question", q))).headD "")).getD i Value.vNA) ≠
                Value.vStr s)
          else
            ((env.df ((corresponding env.dfL "Component"
              (sel.items.get ⟨k, hk⟩) "Column"
              (some ("Question", q))).headD "")).getD i Value.vNA)
              ∈ sel.responses))) := by
  have hie : sel.items.isEmpty = false := by
    cases h : sel.items with
    | nil => exact absurd h hitems
    | cons a t => rfl
  have hre : sel.responses.isEmpty = false := by
    cases h : sel.responses with
    | nil => exact absurd h hresp
    | cons a t => rfl
  have hunfold : behaviouralMasks env sel =
      sel.items.map (fun item =>
        let col := (corresponding env.dfL "Component" item "Column"
          (some ("Question", q))).headD ""
        if q.take 3 == "Q15" then
          (env.df col).map (fun c => q15Test c sel.responses)
        else
          (env.df col).map (fun c => c.isinVals sel.responses)) := by
    simp [behaviouralMasks, hq, hie, hre]
  constructor
  · rw [hunfold, List.length_map]
  · intro k hk i hi
    set item := sel.items.get ⟨k, hk⟩ with hitem
    set col := (corresponding env.dfL "Component" item "Column"
      (some ("Question", q))).headD "" with hcol
    have hk' : k < (behaviouralMasks env sel).length := by
      rw [hunfold, List.length_map]; exact hk
    have hmask : (behaviouralMasks env sel).getD k [] =
        (if q.take 3 == "Q15" then
          (env.df col).map (fun c => q15Test c sel.responses)
        else
          (env.df col).map (fun c => c.isinVals sel.responses)) := by
      rw [hunfold]
      rw [List.getD_eq_getElem _ _ (by simpa using hk)]
      rw [List.getElem_map]
      simp only [List.get_eq_getElem] at hitem
      rw [← hitem]
    by_cases hq15 : q.take 3 = "Q15"
    · have hbeq : (q.take 3 == "Q15") = true := by
        simp [hq15]
      rw [hmask, if_pos hbeq, if_pos hq15]
      rw [List.getD_eq_getElem _ _ (by simpa using hi), List.getElem_map,
        List.getD_eq_getElem _ _ hi]
      cases hcell : (env.df col)[i] with
      | vStr s =>
        simp only [q15Test, List.any_eq_true]
        constructor
        · rintro ⟨r, hr, hrw⟩
          cases r with
          | vStr w => exact Or.inl ⟨s, rfl, w, hr, hrw⟩
          | vInt n => simp at hrw
          | vNA => simp at hrw
        · rintro (⟨s', hs', w, hw, hcont⟩ | hno)
          · cases hs'
            exact ⟨Value.vStr w, hw, hcont⟩
          · exact absurd rfl (hno s)
      | vInt n =>
        constructor
        · intro _
          exact Or.inr (fun s h => Value.noConfusion h)
        · intro _
          rfl
      | vNA =>
        constructor
        · intro _
          exact Or.inr (fun s h => Value.noConfusion h)
        · intro _
          rfl
    · have hnb : ¬ ((q.take 3 == "Q15") = true) := by
        simp [hq15]
      rw [hmask, if_neg hnb, if_neg hq15]
      rw [List.getD_eq_getElem _ _ (by simpa using hi), List.getElem_map,
        List.getD_eq_getElem _ _ hi]
      simp only [Value.isinVals]
      exact List.elem_iff

/-- Witness for C6: the behavioural-only selection `selBeh` against
`envBeh` produces one mask for its single item. -/
theorem behavioural_filter_semantics_witness :
    (behaviouralMasks envBeh selBeh).length = selBeh.items.length :=
  (behavioural_filter_semantics envBeh selBeh "QX question" rfl
    (by decide) (by decide)).1

/-- Counterexample for C6 as originally stated: with the Q15 behavioural
filter selecting the keyword `"lounge"`, the respondent whose free-text
cell is missing is nevertheless included by the built mask — inclusion
is not decided by containment of a selected response in the text, since
the cell is not a string at all. -/
theorem q15_missing_text_counterexample :
    ((behaviouralMasks envQ15 selQ15).getD 0 []).getD 0 false = true ∧
    (envQ15.df "Q15col").getD 0 Value.vNA = Value.vNA ∧
    (∀ s : String,
      (envQ15.df "Q15col").getD 0 Value.vNA ≠ Value.vStr s) := by
  refine ⟨by decide, by decide, ?_⟩
  intro s h
  have hcell : (envQ15.df "Q15col").getD 0 Value.vNA = Value.vNA := by
    decide
  rw [hcell] at h
  exact Value.noConfusion h

/-! ### C7 — alias/scope resolution -/

/-- Counterexample for C7: over a catalog where the component label
`"X"` appears under two questions with two different data columns, the
caller pattern `corresponding("Component", "X", "Column")[0]` — with no
scope — silently returns the first match `"C1"`, contradicting the
claim that an ambiguous unscoped resolution does not return the first
match. -/
theorem ambiguous_resolution_counterexample :
    corresponding dfLdup "Component" "X" "Column" none = ["C1", "C2"] ∧
    resolveColumn dfLdup "Component" "X" "Column" none = some "C1" ∧
    "C1" ≠ "C2" := by
  refine ⟨by decide, by decide, by decide⟩

/-- C7 (amended): resolving an alias/scope with no matching catalog row
yields no candidate column at all (so the caller's immediate `[0]`
indexing fails fast — with Python's generic `IndexError`, not a message
naming the alias — rather than silently using a wrong column), and any
column that is returned comes from a catalog row genuinely matching the
alias and the scope; however, an ambiguous alias without a scope
resolves silently to the first matching row's column. -/
theorem resolution_amended (dfL : List LabelRow)
    (value_col value target_col : String)
    (scope : Option (String × String)) :
    ((∀ r ∈ dfL, scopeMatches scope r → r.field value_col ≠ value) →
      resolveColumn dfL value_col value target_col scope = none) ∧
    (∀ c : String,
      resolveColumn dfL value_col value target_col scope = some c →
      ∃ r ∈ dfL, scopeMatches scope r ∧ r.field value_col = value ∧
        r.field target_col = c) := by
  constructor
  · intro hnone
    have hfilter :
        ((match scope with
          | some fv => dfL.filter (fun (r : LabelRow) => r.field fv.1 == fv.2)
          | none => dfL).filter
            (fun (r : LabelRow) => r.field value_col == value)) = [] := by
      rw [List.filter_eq_nil_iff]
      intro r hr
      cases hscope : scope with
      | none =>
        rw [hscope] at hr
        have := hnone r hr (by rw [hscope]; trivial)
        simpa using this
      | some fv =>
        rw [hscope] at hr
        rcases List.mem_filter.mp hr with ⟨hrd, hrs⟩
        have hs : scopeMatches (some fv) r := by
          simpa [scopeMatches] using hrs
        have := hnone r hrd (by rw [hscope]; exact hs)
        simpa using this
    simp only [resolveColumn, corresponding]
    rw [hfilter]
    rfl
  · intro c hc
    simp only [resolveColumn, corresponding] at hc
    have hmem : c ∈ (((match scope with
        | some fv => dfL.filter (fun (r : LabelRow) => r.field fv.1 == fv.2)
        | none => dfL).filter
          (fun (r : LabelRow) => r.field value_col == value)).map
            (fun (r : LabelRow) => r.field target_col)) := by
      exact List.mem_of_mem_head? hc
    rcases List.mem_map.mp hmem with ⟨r, hr, hrt⟩
    rcases List.mem_filter.mp hr with ⟨hr', hrv⟩
    cases hscope : scope with
    | none =>
      rw [hscope] at hr'
      exact ⟨r, hr', by simp [scopeMatches], by simpa using hrv, hrt⟩
    | some fv =>
      rw [hscope] at hr'
      rcases List.mem_filter.mp hr' with ⟨hrd, hrs⟩
      refine ⟨r, hrd, ?_, by simpa using hrv, hrt⟩
      simpa [scopeMatches] using hrs

/-- Witness for C7 (amended): the unknown component label `"Y"`
resolves to nothing over the two-row catalog, and the resolved column
for `"X"` scoped to `"Q2 second"` comes from a genuinely matching
row. -/
theorem resolution_amended_witness :
    resolveColumn dfLdup "Component" "Y" "Column" none = none ∧
    ∃ r ∈ dfLdup, scopeMatches (some ("Question", "Q2 second")) r ∧
      r.field "Component" = "X" ∧ r.field "Column" = "C2" := by
  constructor
  · exact (resolution_amended dfLdup "Component" "Y" "Column" none).1
      (by intro r hr _; fin_cases hr <;> decide)
  · exact (resolution_amended dfLdup "Component" "X" "Column"
      (some ("Question", "Q2 second"))).2 "C2" (by decide)

/-! ### C8 — equal-bound range rendering -/

/-- Two strings of different lengths differ: used to separate a
single-value rendering from a dash-range rendering. -/
theorem append_dash_ne (x y u : String) :
    x ++ u ≠ x ++ " - " ++ y ++ u := by
  intro h
  have hlen := congrArg String.length h
  simp only [String.length_append] at hlen
  have h3 : (" - " : String).length = 3 := rfl
  omega

/-- Dollar variant of `append_dash_ne`. -/
theorem append_dash_dollar_ne (x y : String) :
    x ≠ x ++ " - $" ++ y := by
  intro h
  have hlen := congrArg String.length h
  simp only [String.length_append] at hlen
  have h3 : (" - $" : String).length = 4 := rfl
  omega

/-- C8: a numeric range filter whose bounds are equal and match no
quick-filter option renders as a single value — `"{v} years"`,
`"${v:,}"`, `"{v} trips"` — and in particular not as the corresponding
dash-range rendering. -/
theorem equal_bounds_single_value (env : Env) (a inc t : Int × Int)
    (ha : optionKey env.ageOptions a = none) (ha2 : a.1 = a.2)
    (hinc : optionKey env.incomeOptions inc = none) (hinc2 : inc.1 = inc.2)
    (ht : optionKey env.travelOptions t = none) (ht2 : t.1 = t.2) :
    (ageSummary env a = toString a.1 ++ " years" ∧
      ageSummary env a ≠
        toString a.1 ++ " - " ++ toString a.2 ++ " years") ∧
    (incomeSummary env inc = "$" ++ intComma inc.1 ∧
      incomeSummary env inc ≠
        "$" ++ intComma inc.1 ++ " - $" ++ intComma inc.2) ∧
    (travelSummary env t = toString t.1 ++ " trips" ∧
      travelSummary env t ≠
        toString t.1 ++ " - " ++ toString t.2 ++ " trips") := by
  have hage : ageSummary env a = toString a.1 ++ " years" := by
    simp [ageSummary, ha, ha2]
  have hincome : incomeSummary env inc = "$" ++ intComma inc.1 := by
    simp [incomeSummary, hinc, hinc2]
  have htravel : travelSummary env t = toString t.1 ++ " trips" := by
    simp [travelSummary, ht, ht2]
  refine ⟨⟨hage, ?_⟩, ⟨hincome, ?_⟩, ⟨htravel, ?_⟩⟩
  · rw [hage]
    exact append_dash_ne (toString a.1) (toString a.2) " years"
  · rw [hincome]
    have h := append_dash_dollar_ne ("$" ++ intComma inc.1) (intComma inc.2)
    intro hcontra
    exact h (by simpa [String.append_assoc] using hcontra)
  · rw [htravel]
    exact append_dash_ne (toString t.1) (toString t.2) " trips"

/-- Witness for C8 at the range `[25, 25]` with empty option tables
(`envTriv`): the summaries are `"25 years"`, `"$25"` and `"25 trips"`,
not dash-ranges. -/
theorem equal_bounds_single_value_witness :
    (ageSummary envTriv (25, 25) = toString (25 : Int) ++ " years" ∧
      ageSummary envTriv (25, 25) ≠
        toString (25 : Int) ++ " - " ++ toString (25 : Int) ++ " years") ∧
    (incomeSummary envTriv (25, 25) = "$" ++ intComma 25 ∧
      incomeSummary envTriv (25, 25) ≠
        "$" ++ intComma 25 ++ " - $" ++ intComma 25) ∧
    (travelSummary envTriv (25, 25) = toString (25 : Int) ++ " trips" ∧
      travelSummary envTriv (25, 25) ≠
        toString (25 : Int) ++ " - " ++ toString (25 : Int) ++ " trips") :=
  equal_bounds_single_value envTriv (25, 25) (25, 25) (25, 25)
    rfl rfl rfl rfl rfl rfl

/-! ### C10 — inverse-cohort sample display -/

/-- C10: when Audience B is the inverse of a full-length Audience A mask
selecting `k` rows, B's stored mask is the exact complement (it holds
the `6024 - k` rows not in A), and the displayed sample count is
`6024 - k` when `k > 0` but `0` when `k = 0` — even though in that case
B's stored mask includes all 6024 respondents. -/
theorem not_audience_A_sample_display (m : List Bool)
    (hm : m.length = TOTAL_SAMPLE) :
    countTrue (if_not_audience_A_final_mask m) =
      TOTAL_SAMPLE - countTrue m ∧
    (∀ i : Nat, i < TOTAL_SAMPLE →
      (if_not_audience_A_final_mask m).getD i false = !(m.getD i false)) ∧
    (countTrue m ≠ 0 →
      (if_not_audience_A_sample (countTrue m)).shown =
        TOTAL_SAMPLE - countTrue m) ∧
    (countTrue m = 0 →
      (if_not_audience_A_sample (countTrue m)).shown = 0 ∧
      countTrue (if_not_audience_A_final_mask m) = TOTAL_SAMPLE) := by
  have hne : m.isEmpty = false := by
    cases hc : m with
    | nil => rw [hc] at hm; simp [TOTAL_SAMPLE] at hm
    | cons a t => rfl
  have hinv : if_not_audience_A_final_mask m = m.map (fun x => !x) := by
    simp [if_not_audience_A_final_mask, hne]
  have hcount : countTrue (if_not_audience_A_final_mask m) =
      TOTAL_SAMPLE - countTrue m := by
    rw [hinv]
    have h1 : (m.map (fun x => !x)).count true = m.count false := by
      rw [List.count, List.countP_map, List.count]
      congr 1
      funext b
      cases b <;> rfl
    have h3 := List.count_true_add_count_false m
    simp only [countTrue]
    rw [h1]
    omega
  refine ⟨hcount, ?_, ?_, ?_⟩
  · intro i hi
    have him : i < m.length := by omega
    have himap : i < (m.map (fun x => !x)).length := by
      simpa using him
    rw [hinv, List.getD_eq_getElem _ _ himap, List.getElem_map,
      List.getD_eq_getElem _ _ him]
  · intro hk
    simp [if_not_audience_A_sample, hk]
  · intro hk
    constructor
    · simp [if_not_audience_A_sample, hk]
    · rw [hcount, hk]
      omega

/-- Witness for C10 at a full-length all-false Audience A mask (the
`k = 0` corner: B displays 0 yet stores all 6024 respondents). -/
theorem not_audience_A_sample_display_witness :
    countTrue (if_not_audience_A_final_mask
      (List.replicate TOTAL_SAMPLE false)) =
      TOTAL_SAMPLE - countTrue (List.replicate TOTAL_SAMPLE false) ∧
    (∀ i : Nat, i < TOTAL_SAMPLE →
      (if_not_audience_A_final_mask
        (List.replicate TOTAL_SAMPLE false)).getD i false =
        !((List.replicate TOTAL_SAMPLE false).getD i false)) ∧
    (countTrue (List.replicate TOTAL_SAMPLE false) ≠ 0 →
      (if_not_audience_A_sample
        (countTrue (List.replicate TOTAL_SAMPLE false))).shown =
        TOTAL_SAMPLE - countTrue (List.replicate TOTAL_SAMPLE false)) ∧
    (countTrue (List.replicate TOTAL_SAMPLE false) = 0 →
      (if_not_audience_A_sample
        (countTrue (List.replicate TOTAL_SAMPLE false))).shown = 0 ∧
      countTrue (if_not_audience_A_final_mask
        (List.replicate TOTAL_SAMPLE false)) = TOTAL_SAMPLE) :=
  not_audience_A_sample_display (List.replicate TOTAL_SAMPLE false)
    (by simp)

/-! ### Value-count lemmas (used by C4 and C5) -/

/-- Inserting into the descending-sorted list is a permutation. -/
theorem insertDesc_perm (p : Value × Nat) (l : List (Value × Nat)) :
    (insertDesc p l).Perm (p :: l) := by
  induction l with
  | nil => exact List.Perm.refl _
  | cons q rest ih =>
    rw [insertDesc]
    split
    · exact List.Perm.refl _
    · exact ((ih.cons q).trans (List.Perm.swap p q rest))

/-- The descending sort is a permutation. -/
theorem sortDesc_perm (l : List (Value × Nat)) :
    (sortDesc l).Perm l := by
  induction l with
  | nil => exact List.Perm.refl _
  | cons p rest ih =>
    exact (insertDesc_perm p (sortDesc rest)).trans (ih.cons p)

/-- Strong-induction core of `mem_uniqueVals`. -/
theorem mem_uniqueVals_aux :
    ∀ n : Nat, ∀ l : List Value, l.length = n →
      ∀ v : Value, v ∈ uniqueVals l → v ∈ l := by
  intro n
  induction n using Nat.strong_induction_on with
  | _ n ih =>
    intro l hn v hv
    cases l with
    | nil => rw [uniqueVals] at hv; exact absurd hv (List.not_mem_nil v)
    | cons c rest =>
      rw [uniqueVals] at hv
      rcases List.mem_cons.mp hv with h | h
      · exact h ▸ List.mem_cons_self c rest
      · have hlt : (rest.filter (fun x => decide (x ≠ c))).length < n := by
          have := List.length_filter_le (fun x => decide (x ≠ c)) rest
          simp only [List.length_cons] at hn
          omega
        have hmem := ih _ hlt (rest.filter (fun x => decide (x ≠ c))) rfl v h
        exact List.mem_cons_of_mem c (List.mem_of_mem_filter hmem)

/-- Every distinct value came from the original list. -/
theorem mem_uniqueVals (l : List Value) (v : Value)
    (hv : v ∈ uniqueVals l) : v ∈ l :=
  mem_uniqueVals_aux l.length l rfl v hv

/-- Strong-induction core of `sum_counts_uniqueVals`. -/
theorem sum_counts_uniqueVals_aux :
    ∀ n : Nat, ∀ l : List Value, l.length = n →
      ((uniqueVals l).map (fun v => l.count v)).sum = l.length := by
  intro n
  induction n using Nat.strong_induction_on with
  | _ n ih =>
    intro l hn
    cases l with
    | nil => rw [uniqueVals]; simp
    | cons c rest =>
      rw [uniqueVals]
      have hlt : (rest.filter (fun x => decide (x ≠ c))).length < n := by
        have := List.length_filter_le (fun x => decide (x ≠ c)) rest
        simp only [List.length_cons] at hn
        omega
      have hih := ih _ hlt (rest.filter (fun x => decide (x ≠ c))) rfl
      have hcong : (uniqueVals (rest.filter (fun x => decide (x ≠ c)))).map
          (fun v => (c :: rest).count v) =
          (uniqueVals (rest.filter (fun x => decide (x ≠ c)))).map
          (fun v => (rest.filter (fun x => decide (x ≠ c))).count v) := by
        apply List.map_congr_left
        intro v hv
        have hvne : v ≠ c := by
          have hmem := mem_uniqueVals_aux _ _ rfl v hv
          have hf := List.mem_filter.mp hmem
          simpa using hf.2
        rw [List.count_cons_of_ne hvne rest,
          List.count_filter (by simpa using hvne)]
      have hsplit : rest.length =
          rest.count c + (rest.filter (fun x => decide (x ≠ c))).length := by
        have h := List.length_eq_countP_add_countP
          (p := fun x => x == c) (l := rest)
        have h2 : rest.countP (fun a => decide ¬((a == c) = true)) =
            (rest.filter (fun x => decide (x ≠ c))).length := by
          rw [← List.countP_eq_length_filter]
          congr 1
          funext a
          by_cases hac : a = c <;> simp [hac]
        rw [h2] at h
        simpa [List.count] using h
      simp only [List.map_cons, List.sum_cons, hcong, hih,
        List.count_cons_self, List.length_cons]
      omega

/-- The occurrence counts of the distinct values of a list sum to its
length. -/
theorem sum_counts_uniqueVals (l : List Value) :
    ((uniqueVals l).map (fun v => l.count v)).sum = l.length :=
  sum_counts_uniqueVals_aux l.length l rfl

/-- Every (value, count) pair of `valueCountsDesc` pairs a value with
its occurrence count among the non-`NaN` cells. -/
theorem mem_valueCountsDesc (cells : List Value) (p : Value × Nat)
    (hp : p ∈ valueCountsDesc cells) : p.2 = (nonNA cells).count p.1 := by
  have hmem : p ∈ (uniqueVals (nonNA cells)).map
      (fun v => (v, (nonNA cells).count v)) :=
    (sortDesc_perm _).mem_iff.mp hp
  rcases List.mem_map.mp hmem with ⟨v, _, hv⟩
  rw [← hv]

/-- Summing a list divided elementwise by a constant. -/
theorem sum_div_list (l : List ℚ) (d : ℚ) :
    (l.map (fun x => x / d)).sum = l.sum / d := by
  induction l with
  | nil => simp
  | cons a t ih => simp [ih, add_div]

/-- Counting a non-`NaN` value is unaffected by dropping `NaN`s. -/
theorem count_nonNA (cells : List Value) (label : String) :
    (nonNA cells).count (Value.vStr label) =
      cells.count (Value.vStr label) := by
  unfold nonNA
  exact List.count_filter (by rfl)

/-- A non-blank string value occurs at most `col_length` times: every
cell counted for it is a non-missing, non-blank cell. -/
theorem count_vStr_le_colLength (cells : List Value) (label : String)
    (hnb : isBlank label = false) :
    (nonNA cells).count (Value.vStr label) ≤ colLength cells := by
  rw [count_nonNA, colLength, ← List.countP_eq_length_filter]
  show cells.countP (fun c => c == Value.vStr label) ≤ _
  refine List.countP_mono_left ?_
  intro c _ hc
  have hceq : c = Value.vStr label := by simpa using hc
  subst hceq
  simp [Value.isMissingOrBlank, hnb]

/-- Cells grouped under a non-blank sentiment label are non-missing,
non-blank cells, so their count is at most `col_length`. -/
theorem sentiment_count_le_colLength (cells : List Value) (label : String)
    (hne : label ≠ "") (hnb : isBlank label = false) :
    sentiment_count cells label ≤ colLength cells := by
  rw [sentiment_count, colLength, ← List.countP_eq_length_filter,
    ← List.countP_eq_length_filter, nonNA, List.countP_filter]
  refine List.countP_mono_left ?_
  intro c _ hc
  simp only [Bool.and_eq_true] at hc
  rcases hc with ⟨hlab, hkeep⟩
  cases c with
  | vStr s =>
    have hs : s = label := by simpa [Value.pyStr] using hlab
    subst hs
    simp [Value.isMissingOrBlank, hnb]
  | vInt n => simp [Value.isMissingOrBlank]
  | vNA => simp at hkeep

/-- A produced re-indexed percentage is at most 1. -/
theorem reindex_perc_le_one (cells : List Value) (label : String)
    (hnb : isBlank label = false) (q' : ℚ)
    (h : (reindexCount cells label).map
      (fun n => (n : ℚ) / (colLength cells : ℚ)) = some q') : q' ≤ 1 := by
  rcases Option.map_eq_some'.mp h with ⟨n, hn, hq⟩
  unfold reindexCount at hn
  by_cases h0 : (nonNA cells).count (Value.vStr label) = 0
  · rw [if_pos h0] at hn
    exact absurd hn (by simp)
  · rw [if_neg h0] at hn
    have hcount : (nonNA cells).count (Value.vStr label) = n :=
      Option.some.inj hn
    subst hcount
    have hle := count_vStr_le_colLength cells label hnb
    have hpos : 0 < colLength cells := by omega
    subst hq
    rw [div_le_one (by exact_mod_cast hpos)]
    exact_mod_cast hle

/-- A produced sentiment percentage is at most 1. -/
theorem sentiment_perc_le_one (cells : List Value) (label : String)
    (hne : label ≠ "") (hnb : isBlank label = false) (q' : ℚ)
    (h : airport_sentiment_perc cells label = some q') : q' ≤ 1 := by
  rcases Option.map_eq_some'.mp h with ⟨n, hn, hq⟩
  unfold sentiment_reindexed at hn
  by_cases h0 : sentiment_count cells label = 0
  · rw [if_pos h0] at hn
    exact absurd hn (by simp)
  · rw [if_neg h0] at hn
    have hcount : sentiment_count cells label = n := Option.some.inj hn
    subst hcount
    have hle := sentiment_count_le_colLength cells label hne hnb
    have hpos : 0 < colLength cells := by omega
    subst hq
    rw [div_le_one (by exact_mod_cast hpos)]
    exact_mod_cast hle

/-! ### C4 — percentage denominators and subsample footnotes -/

/-- Every (value, count) pair surviving the `kwargs` processing of
`one_col_h_bar_plot` still pairs a value with its occurrence count. -/
theorem mem_one_col_value_counts (kw : OneColKwargs) (df : List Value)
    (p : Value × Nat) (hp : p ∈ one_col_value_counts kw df) :
    p.2 = (nonNA df).count p.1 := by
  have hstep : ∀ q : Value × Nat,
      q ∈ (match kw.others with
        | some b => if b then valueCountsDesc df
            else (valueCountsDesc df).filter
              (fun r => r.1 ≠ Value.vStr "Others")
        | none => valueCountsDesc df) →
      q.2 = (nonNA df).count q.1 := by
    intro q hq
    cases ho : kw.others with
    | none =>
      rw [ho] at hq
      exact mem_valueCountsDesc df q hq
    | some b =>
      rw [ho] at hq
      dsimp only at hq
      by_cases hb : b
      · rw [if_pos hb] at hq
        exact mem_valueCountsDesc df q hq
      · rw [if_neg hb] at hq
        exact mem_valueCountsDesc df q (List.mem_of_mem_filter hq)
  rw [one_col_value_counts] at hp
  cases hc : kw.cutoff with
  | none =>
    rw [hc] at hp
    exact hstep p hp
  | some n =>
    rw [hc] at hp
    dsimp only at hp
    by_cases hn : n = 0
    · rw [if_pos hn] at hp
      exact hstep p hp
    · rw [if_neg hn] at hp
      exact hstep p (List.mem_of_mem_take hp)

/-- C4 (amended): `one_col_h_bar_plot` divides every plotted percentage
by the cohort row count `len(df)` — not by the smaller non-missing
count, even when the two differ — while `airport_sentiment` divides by
the non-missing count `col_length`; both emit a footnote carrying the
effective sub-sample size exactly when it is smaller than the cohort
row count. -/
theorem percentage_denominators (kw : OneColKwargs) (df dfs : List Value) :
    (∀ p ∈ one_col_h_bar_percs kw df,
      p.2 = ((nonNA df).count p.1 : ℚ) / (df.length : ℚ)) ∧
    ((one_col_footnote df).isSome ↔ colLength df < df.length) ∧
    (∀ x : Nat × ℚ, one_col_footnote df = some x → x.1 = colLength df) ∧
    (∀ label : String, ∀ q' : ℚ,
      airport_sentiment_perc dfs label = some q' →
      q' = (sentiment_count dfs label : ℚ) / (colLength dfs : ℚ)) := by
  refine ⟨?_, ?_, ?_, ?_⟩
  · intro p hp
    rcases List.mem_map.mp hp with ⟨q, hq, hqp⟩
    have hcount := mem_one_col_value_counts kw df q hq
    rw [← hqp]
    simp only
    rw [hcount]
  · unfold one_col_footnote
    by_cases h : colLength df < df.length
    · rw [if_pos h]
      simpa using h
    · rw [if_neg h]
      simpa using h
  · intro x hx
    unfold one_col_footnote at hx
    by_cases h : colLength df < df.length
    · rw [if_pos h] at hx
      have := Option.some.inj hx
      rw [← this]
    · rw [if_neg h] at hx
      exact absurd hx (by simp)
  · intro label q' hq'
    rcases Option.map_eq_some'.mp hq' with ⟨n, hn, hq⟩
    unfold sentiment_reindexed at hn
    by_cases h0 : sentiment_count dfs label = 0
    · rw [if_pos h0] at hn
      exact absurd hn (by simp)
    · rw [if_neg h0] at hn
      have hcount : sentiment_count dfs label = n := Option.some.inj hn
      subst hcount
      exact hq.symm

/-- Counterexample for C4: over the three-row cohort
`["a", NaN, "a"]` — cohort size 3, non-missing count 2 —
`one_col_h_bar_plot` reports the share of `"a"` as `2/3`, not the
`2/2` that division by the non-missing answer count would give. -/
theorem one_col_denominator_counterexample :
    one_col_h_bar_percs ⟨none, none, "Q4"⟩
        [Value.vStr "a", Value.vNA, Value.vStr "a"] =
      [(Value.vStr "a", (2 : ℚ) / 3)] ∧
    colLength [Value.vStr "a", Value.vNA, Value.vStr "a"] = 2 ∧
    ([Value.vStr "a", Value.vNA, Value.vStr "a"] : List Value).length = 3 ∧
    ((2 : ℚ) / 3) ≠ (2 : ℚ) / 2 := by
  refine ⟨?_, by decide, by decide, by norm_num⟩
  have h1 : nonNA [Value.vStr "a", Value.vNA, Value.vStr "a"] =
      [Value.vStr "a", Value.vStr "a"] := by decide
  have h2 : uniqueVals [Value.vStr "a", Value.vStr "a"] = [Value.vStr "a"] := by
    have h2a : ([Value.vStr "a"].filter
        (fun x => decide (x ≠ Value.vStr "a"))) = [] := by decide
    rw [uniqueVals, h2a, uniqueVals]
  simp only [one_col_h_bar_percs, one_col_value_counts, valueCountsDesc,
    h1, h2]
  norm_num [sortDesc, insertDesc, List.count_cons, List.count_nil]

/-- Witness for C4 (amended): the footnote produced over the
counterexample cohort records the effective sub-sample size 2. -/
theorem percentage_denominators_witness :
    ((2 : Nat), (2 : ℚ) / (TOTAL_SAMPLE : ℚ)).1 =
      colLength [Value.vStr "a", Value.vNA, Value.vStr "a"] :=
  (percentage_denominators ⟨none, none, "Q4"⟩
    [Value.vStr "a", Value.vNA, Value.vStr "a"] []).2.2.1
    ((2 : Nat), (2 : ℚ) / (TOTAL_SAMPLE : ℚ))
    (by
      have h : colLength [Value.vStr "a", Value.vNA, Value.vStr "a"] = 2 := by
        decide
      unfold one_col_footnote
      rw [h]
      norm_num)

/-! ### C5 — percentage normalization -/

/-- C5: for a cohort of at least 10 rows, (i) the single-select pie
breakdown (one response per respondent, so no missing cells, and all
response categories included) produces percentages summing to exactly 1;
(ii) every percentage produced by the fixed-order sentiment breakdown is
at most 1; (iii) every per-category, per-column percentage produced by
the grouped `two_col_h_bar_plot` breakdown is at most 1. -/
theorem breakdown_percentages (df dfs : List Value)
    (dfq : List (Value × Value)) (q_id : String) (names : String × String)
    (h10 : 10 ≤ df.length) (hfull : ∀ c ∈ df, c ≠ Value.vNA) :
    ((generic_pie_values df).map (fun p => p.2)).sum = 1 ∧
    (∀ label ∈ sentimentLabels, ∀ q' : ℚ,
      airport_sentiment_perc dfs label = some q' → q' ≤ 1) ∧
    (∀ e ∈ (two_col_h_bar_plot q_id dfq names "A").numbers.percs,
      (∀ q' : ℚ, e.2.1 = some q' → q' ≤ 1) ∧
      (∀ q' : ℚ, e.2.2 = some q' → q' ≤ 1)) := by
  refine ⟨?_, ?_, ?_⟩
  · have hnn : nonNA df = df := by
      refine List.filter_eq_self.mpr ?_
      intro a ha
      simpa using hfull a ha
    have hlen0 : (df.length : ℚ) ≠ 0 := by
      have : 0 < df.length := by omega
      exact_mod_cast Nat.pos_iff_ne_zero.mp (by exact_mod_cast this)
    calc ((generic_pie_values df).map (fun p => p.2)).sum
        = ((valueCountsDesc df).map
            (fun p : Value × Nat => (p.2 : ℚ) / (df.length : ℚ))).sum := by
          simp only [generic_pie_values, List.map_map]
          rfl
      _ = (((uniqueVals (nonNA df)).map
            (fun v => (v, (nonNA df).count v))).map
            (fun p : Value × Nat => (p.2 : ℚ) / (df.length : ℚ))).sum :=
          ((sortDesc_perm _).map _).sum_eq
      _ = (((uniqueVals (nonNA df)).map
            (fun v => ((nonNA df).count v : ℚ))).map
            (fun x => x / (df.length : ℚ))).sum := by
          simp only [List.map_map]
          rfl
      _ = ((uniqueVals (nonNA df)).map
            (fun v => ((nonNA df).count v : ℚ))).sum / (df.length : ℚ) :=
          sum_div_list _ _
      _ = ((((uniqueVals (nonNA df)).map
            (fun v => (nonNA df).count v)).sum : ℕ) : ℚ) / (df.length : ℚ) := by
          rw [Nat.cast_list_sum, List.map_map]
          rfl
      _ = ((nonNA df).length : ℚ) / (df.length : ℚ) := by
          rw [sum_counts_uniqueVals]
      _ = 1 := by
          rw [hnn]
          exact div_self hlen0
  · intro label hlabel q' hq'
    have hne : label ≠ "" := by fin_cases hlabel <;> decide
    have hnb : isBlank label = false := by fin_cases hlabel <;> decide
    exact sentiment_perc_le_one dfs label hne hnb q' hq'
  · intro e he
    have hpercs : (two_col_h_bar_plot q_id dfq names "A").numbers.percs =
        (if q_id = "Q5" then q5Labels else q6Labels).map (fun l =>
          (l, ((reindexCount (dfq.map (fun r => r.1)) l).map
                (fun n => (n : ℚ) /
                  (colLength (dfq.map (fun r => r.1)) : ℚ)),
               (reindexCount (dfq.map (fun r => r.2)) l).map
                (fun n => (n : ℚ) /
                  (colLength (dfq.map (fun r => r.2)) : ℚ))))) := rfl
    rw [hpercs] at he
    rcases List.mem_map.mp he with ⟨l, hl, hle⟩
    have hnb : isBlank l = false := by
      by_cases hq5 : q_id = "Q5"
      · rw [if_pos hq5] at hl
        fin_cases hl <;> decide
      · rw [if_neg hq5] at hl
        fin_cases hl <;> decide
    subst hle
    constructor
    · intro q' hq'
      exact reindex_perc_le_one _ l hnb q' hq'
    · intro q' hq'
      exact reindex_perc_le_one _ l hnb q' hq'

/-- Witness for C5: a ten-row single-category column sums to exactly
1. -/
theorem breakdown_percentages_witness :
    ((generic_pie_values (List.replicate 10 (Value.vStr "a"))).map
      (fun p => p.2)).sum = 1 :=
  (breakdown_percentages (List.replicate 10 (Value.vStr "a")) [] []
    "Q5" ("x", "y") (by simp)
    (fun c hc => by rw [List.eq_of_mem_replicate hc]; decide)).1

/-! ### C9 — cohort label noninterference -/

set_option maxHeartbeats 2000000 in
/-- C9: for every question id of the `q_functions` dispatch table and
every prepared cohort input, the strategy bound by
`run_question_function` computes identical numbers — counts,
percentages, medians, averages, orderings — for the cohort labels
`"A"` and `"B"`; the label reaches only presentation attributes
(colors, markdown classNames, label-bearing titles). -/
theorem cohort_label_noninterference (q_id : String)
    (inp : QuestionInput) :
    (run_question_function q_id inp "A").map AggView.numbers =
      (run_question_function q_id inp "B").map AggView.numbers := by
  have h : ∀ r ∈ q_functions, ∀ i : QuestionInput,
      (r.2 i "A").map AggView.numbers = (r.2 i "B").map AggView.numbers := by
    intro r hr i
    unfold q_functions at hr
    fin_cases hr <;> cases i <;> rfl
  unfold run_question_function
  cases hf : q_functions.find? (fun r => r.1 == q_id) with
  | none => rfl
  | some r => exact h r (List.mem_of_find?_eq_some hf) inp

end SurveyDash
